import Mathlib

/-!
Verification of the PDFMerger repository merge pipeline
(`src/pdfmerge.py` and `src/convert.py`) against its specification.

The Python code is shallowly embedded: the filesystem is an explicit state
value (`FS`), the external libraries (img2pdf, PIL, reportlab, docx2pdf,
and the pypdf merger backend) are abstract oracles gathered in an
environment record (`Env`), and every fallible operation returns
`Except PyErr`.  Paths are plain strings; the helpers in the first section
model the Python standard-library path functions used by the code
(`os.path.dirname`, `os.path.splitext`, `pathlib.Path.suffix` and
`pathlib.Path.stem`, `os.path.join`, `str.strip`, `str.splitlines`).
Note: `os.path.abspath` is modelled without `.`/`..` normalisation; the
claims are stated on already-normalised paths.
-/

namespace PDFMerger

abbrev FPath := String

/-- Index of the last occurrence of `c` in `l`, if any. -/
def lastIdxOf (c : Char) (l : List Char) : Option Nat :=
  match l.reverse.findIdx? (fun x => x == c) with
  | none => none
  | some i => some (l.length - 1 - i)

/-- Whether `s` starts with `t` (model of `str.startswith`, implemented
on character lists so that it evaluates by kernel reduction). -/
def strStartsWith (s t : String) : Bool :=
  t.data.isPrefixOf s.data

/-- Whether `s` ends with `t`. -/
def strEndsWith (s t : String) : Bool :=
  t.data.isSuffixOf s.data

/-- Character-wise lower-casing (model of `str.lower`). -/
def lowerStr (s : String) : String :=
  String.mk (s.data.map Char.toLower)

/-- Model of `str.strip()`: remove surrounding whitespace. -/
def pyStrip (s : String) : String :=
  String.mk
    (((s.data.dropWhile Char.isWhitespace).reverse.dropWhile
      Char.isWhitespace).reverse)

/-- Model of `os.path.abspath` (without component normalisation): an
absolute path is returned unchanged, a relative path is resolved against
the current working directory. -/
def pyAbspath (cwd p : FPath) : FPath :=
  if strStartsWith p ("/") then p else cwd ++ "/" ++ p

/-- Model of `os.path.dirname`: the part of the path before the last
slash, with trailing slashes stripped unless the head is all slashes. -/
def pyDirname (p : FPath) : FPath :=
  match lastIdxOf '/' p.data with
  | none => ""
  | some i =>
    let h := p.data.take (i + 1)
    if h.all (fun x => x == '/') then String.mk h
    else String.mk ((h.reverse.dropWhile (fun x => x == '/')).reverse)

/-- The final path component (model of `pathlib.PurePath.name`). -/
def pyBasename (p : FPath) : List Char :=
  match lastIdxOf '/' p.data with
  | none => p.data
  | some i => p.data.drop (i + 1)

/-- Model of `pathlib.PurePath.suffix`: the extension of the final
component, including the dot; empty when the name has no interior dot
(a leading dot or a trailing dot does not count). -/
def pySuffix (p : FPath) : String :=
  let name := pyBasename p
  match lastIdxOf '.' name with
  | none => ""
  | some i =>
    if 0 < i && i + 1 < name.length then String.mk (name.drop i) else ""

/-- Model of `pathlib.PurePath.stem`: the final component without its
suffix. -/
def pyStem (p : FPath) : String :=
  let name := pyBasename p
  match lastIdxOf '.' name with
  | none => String.mk name
  | some i =>
    if 0 < i && i + 1 < name.length then String.mk (name.take i)
    else String.mk name

/-- Model of `os.path.splitext`: split off the extension of the final
component; dots leading the final component do not start an extension. -/
def pySplitext (p : FPath) : FPath × FPath :=
  let cs := p.data
  let base : Nat := match lastIdxOf '/' cs with | none => 0 | some i => i + 1
  match lastIdxOf '.' cs with
  | none => (p, "")
  | some d =>
    if base ≤ d && ((cs.drop base).take (d - base)).any (fun x => !(x == '.')) then
      (String.mk (cs.take d), String.mk (cs.drop d))
    else (p, "")

/-- Model of `os.path.join` for a relative second component. -/
def pyJoin (a b : FPath) : FPath :=
  if a == "" then b
  else if strEndsWith a ("/") then a ++ b
  else a ++ "/" ++ b

/-- Split a character list at every newline. -/
def splitNlAux : List Char → List Char → List String
  | [], cur => [String.mk cur.reverse]
  | c :: rest, cur =>
    if c = '\n' then String.mk cur.reverse :: splitNlAux rest []
    else splitNlAux rest (c :: cur)

/-- Model of `str.splitlines()` for newline-separated text: split on the
newline character, without a trailing empty entry. -/
def pySplitlines (s : String) : List String :=
  let parts := splitNlAux s.data []
  match parts.getLast? with
  | some l => if l == "" then parts.dropLast else parts
  | none => parts

/-- Substring containment test on character lists (model of the Python
operator `in` on strings). -/
def containsSub (pat s : List Char) : Bool :=
  s.tails.any (fun t => pat.isPrefixOf t)

/-- True when `p` is the directory `d` itself or lies strictly inside
it. -/
def atOrUnder (d p : FPath) : Bool :=
  p == d || (d.data ++ ['/']).isPrefixOf p.data

/-! ## Filesystem model -/

/-- One flowable element produced by the text renderer: a paragraph of
(escaped) text, or vertical spacing (reportlab `Paragraph` / `Spacer`). -/
inductive Block where
  | paragraph (s : String)
  | spacer
deriving DecidableEq, Repr

/-- File contents.  A PDF file is its page sequence (pages are abstract
tokens); images and word-processor documents are abstract data;
a text file is a byte sequence in which `none` marks an undecodable
byte; `empty` is a file just truncated by `open(path, "wb")`. -/
inductive FData where
  | pdf (pages : List Nat)
  | img (data : Nat)
  | txt (bytes : List (Option Char))
  | docx (data : Nat)
  | empty
deriving DecidableEq, Repr

/-- The filesystem: an association list of regular files and a list of
directories. -/
structure FS where
  files : List (FPath × FData)
  dirs : List FPath
deriving DecidableEq, Repr

def FS.read (fs : FS) (p : FPath) : Option FData :=
  (fs.files.find? (fun e => e.1 == p)).map (fun e => e.2)

/-- Model of `os.path.isfile`. -/
def FS.isfile (fs : FS) (p : FPath) : Bool :=
  (fs.read p).isSome

/-- Model of `os.path.isdir`. -/
def FS.isdir (fs : FS) (p : FPath) : Bool :=
  fs.dirs.contains p

/-- Model of `os.path.exists`. -/
def FS.pathExists (fs : FS) (p : FPath) : Bool :=
  fs.isfile p || fs.isdir p

/-- Write (create or overwrite) a regular file. -/
def FS.write (fs : FS) (p : FPath) (d : FData) : FS :=
  { fs with files := (p, d) :: fs.files.filter (fun e => !(e.1 == p)) }

/-- Model of `os.makedirs(d, exist_ok=True)`: ensure the directory
exists (creation of missing ancestors is elided; the claims only rely on
the case where the directory already exists, or on the directory list). -/
def FS.makedirs (fs : FS) (d : FPath) : FS :=
  if fs.dirs.contains d then fs else { fs with dirs := d :: fs.dirs }

/-- Model of `tempfile.TemporaryDirectory().__enter__`: record the fresh
directory. -/
def FS.mkTempDir (fs : FS) (d : FPath) : FS :=
  { fs with dirs := d :: fs.dirs }

/-- Model of `TemporaryDirectory.__exit__`: recursively remove the
directory and everything inside it. -/
def FS.removeTree (fs : FS) (d : FPath) : FS :=
  { files := fs.files.filter (fun e => !(atOrUnder d e.1)),
    dirs := fs.dirs.filter (fun q => !(atOrUnder d q)) }

/-! ## Errors and environment -/

/-- Python exceptions raised by the pipeline.  `libError` stands for an
arbitrary exception coming out of one of the converter libraries;
`mergeError` is the repository class `MergeError` and carries its
cause (`raise ... from e`). -/
inductive PyErr where
  | valueError (msg : String)
  | fileExistsError (msg : String)
  | ioError (msg : String)
  | libError (msg : String)
  | mergeError (msg : String) (cause : PyErr)
deriving DecidableEq, Repr

deriving instance DecidableEq for Except

/-- Model of `str(e)` as used by the `MergeError` f-string. -/
def PyErr.msg : PyErr → String
  | valueError m => m
  | fileExistsError m => m
  | ioError m => m
  | libError m => m
  | mergeError m _ => m

def PyErr.isFileExists : PyErr → Bool
  | fileExistsError _ => true
  | _ => false

/-- Keyword arguments passed to `img2pdf.convert`: `auto_orient`
(absent, `True` or `False`) and whether `rotation=Rotation.ifvalid` is
passed. -/
structure EncOpts where
  auto_orient : Option Bool
  rotation_ifvalid : Bool
deriving DecidableEq, Repr

/-- The ambient environment: current directory, the default temp root,
and the behaviour of the external libraries, modelled as oracles.
`encode` is `img2pdf.convert` on image data (errors are messages),
`transpose` is the PIL re-decode / `exif_transpose` pipeline, `layout`
is the reportlab `SimpleDocTemplate.build` pagination, `docxConvert` is
`docx2pdf.convert`, and `writable p` tells whether `open(p, "wb")`
succeeds. -/
structure Env where
  cwd : FPath
  tmpRoot : FPath
  hasIfvalid : Bool
  encode : EncOpts → Nat → Except String (List Nat)
  transpose : Nat → Except String Nat
  layout : List Block → List Nat
  hasDocx : Bool
  docxConvert : Nat → Except String (List Nat)
  writable : FPath → Bool

/-! ## Embedding of `src/convert.py` -/

def IMAGE_EXTS : List String :=
  [".png", ".jpg", ".jpeg", ".bmp", ".tif", ".tiff", ".gif"]

def TEXT_EXTS : List String := [".txt"]

def DOCX_EXTS : List String := [".docx"]

/-- `convert.is_supported_nonpdf`. -/
def is_supported_nonpdf (env : Env) (path : FPath) : Bool :=
  let ext := lowerStr (pySuffix path)
  IMAGE_EXTS.contains ext || TEXT_EXTS.contains ext
    || (DOCX_EXTS.contains ext && env.hasDocx)

/-- Replace every occurrence of the character `c` by `rep` (model of
`str.replace` with a one-character pattern). -/
def replace1 (c : Char) (rep : List Char) : List Char → List Char
  | [] => []
  | x :: xs => (if x = c then rep else [x]) ++ replace1 c rep xs

/-- `convert._escape_xml`: the chained `str.replace` calls, applied in
source order (ampersand first). -/
def escape_xml (text : String) : String :=
  String.mk
    (replace1 (Char.ofNat 39) (("&#39;").data)
      (replace1 (Char.ofNat 34) (("&quot;").data)
        (replace1 '>' (("&gt;").data)
          (replace1 '<' (("&lt;").data)
            (replace1 '&' (("&amp;").data) text.data)))))

/-- Model of reading a file opened with `errors="ignore"`: undecodable
bytes are skipped, decoding never fails. -/
def decodeIgnore (bytes : List (Option Char)) : String :=
  String.mk (bytes.filterMap id)

/-- The story built by the loop in `convert._text_to_pdf`: one
`Paragraph` per non-blank line (XML-escaped), one `Spacer` per blank
line. -/
def buildStory (content : String) : List Block :=
  (pySplitlines content).foldl
    (fun story line =>
      if pyStrip line ≠ "" then story ++ [Block.paragraph (escape_xml line)]
      else story ++ [Block.spacer]) []

/-- `convert._text_to_pdf`: read the text file tolerantly, build the
story, and let reportlab lay it out into `out_pdf`. -/
def textToPdf (env : Env) (fs : FS) (txt_path out_pdf : FPath) :
    Except PyErr Unit × FS :=
  match fs.read txt_path with
  | some (FData.txt bytes) =>
    let story := buildStory (decodeIgnore bytes)
    (Except.ok (), fs.write out_pdf (FData.pdf (env.layout story)))
  | _ => (Except.error (PyErr.ioError ("cannot open: " ++ txt_path)), fs)

/-- `convert._image_to_pdf`: primary img2pdf attempt with orientation
options, a Pillow transpose fallback entered only on rotation-related
failure messages, and a final fallback with no orientation options.
Each `open(out_pdf, "wb")` truncates the file before the encoder runs,
which the model records as a write of `FData.empty`. -/
def imageToPdf (env : Env) (fs : FS) (img_path out_pdf tmp_dir : FPath) :
    Except PyErr Unit × FS :=
  let opts : EncOpts := { auto_orient := some true, rotation_ifvalid := env.hasIfvalid }
  match fs.read img_path with
  | some (FData.img data) =>
    let fs1 := fs.write out_pdf FData.empty
    match env.encode opts data with
    | Except.ok pages => (Except.ok (), fs1.write out_pdf (FData.pdf pages))
    | Except.error e =>
      let m := (lowerStr e).data
      if !(containsSub (("invalid rotation").data) m) && !(containsSub (("rotation").data) m) then
        (Except.error (PyErr.libError e), fs1)
      else
        match env.transpose data with
        | Except.ok fixed =>
          let tmp_fixed := pyJoin tmp_dir ("fixed_" ++ pyStem img_path ++ ".png")
          let fs2 := (fs1.write tmp_fixed (FData.img fixed)).write out_pdf FData.empty
          match env.encode { auto_orient := some false, rotation_ifvalid := false } fixed with
          | Except.ok pages => (Except.ok (), fs2.write out_pdf (FData.pdf pages))
          | Except.error _ =>
            let fs3 := fs2.write out_pdf FData.empty
            match env.encode { auto_orient := none, rotation_ifvalid := false } data with
            | Except.ok pages => (Except.ok (), fs3.write out_pdf (FData.pdf pages))
            | Except.error e2 => (Except.error (PyErr.libError e2), fs3)
        | Except.error _ =>
          let fs3 := fs1.write out_pdf FData.empty
          match env.encode { auto_orient := none, rotation_ifvalid := false } data with
          | Except.ok pages => (Except.ok (), fs3.write out_pdf (FData.pdf pages))
          | Except.error e2 => (Except.error (PyErr.libError e2), fs3)
  | _ => (Except.error (PyErr.libError ("cannot read image: " ++ img_path)), fs)

/-- `convert.convert_to_pdf`: dispatch on the lower-cased suffix of the
absolutised input path, writing the produced PDF into the temp
directory under a type-tag prefix plus the stem of the input. -/
def convert_to_pdf (env : Env) (fs : FS) (input_path : FPath)
    (tmp_dir_arg : Option FPath) : Except PyErr FPath × FS :=
  let in_path := pyAbspath env.cwd input_path
  if !(fs.isfile in_path) then
    (Except.error (PyErr.valueError ("Input not found: " ++ in_path)), fs)
  else
    let ext := lowerStr (pySuffix in_path)
    let tmp_dir := tmp_dir_arg.getD env.tmpRoot
    if IMAGE_EXTS.contains ext then
      let out := pyJoin tmp_dir ("img_" ++ pyStem in_path ++ ".pdf")
      match imageToPdf env fs in_path out tmp_dir with
      | (Except.ok _, fs1) => (Except.ok out, fs1)
      | (Except.error e, fs1) => (Except.error e, fs1)
    else if TEXT_EXTS.contains ext then
      let out := pyJoin tmp_dir ("txt_" ++ pyStem in_path ++ ".pdf")
      match textToPdf env fs in_path out with
      | (Except.ok _, fs1) => (Except.ok out, fs1)
      | (Except.error e, fs1) => (Except.error e, fs1)
    else if DOCX_EXTS.contains ext then
      if !env.hasDocx then
        (Except.error (PyErr.valueError
          (".docx support requires docx2pdf and Microsoft Word on Windows.")), fs)
      else
        let out := pyJoin tmp_dir ("docx_" ++ pyStem in_path ++ ".pdf")
        match fs.read in_path with
        | some (FData.docx d) =>
          match env.docxConvert d with
          | Except.ok pages => (Except.ok out, fs.write out (FData.pdf pages))
          | Except.error e => (Except.error (PyErr.libError e), fs)
        | _ => (Except.error (PyErr.libError ("docx2pdf failed on: " ++ in_path)), fs)
    else
      (Except.error (PyErr.valueError ("Unsupported file type for conversion: " ++ ext)), fs)

/-! ## Embedding of `src/pdfmerge.py` -/

/-- The absolutised output path (`out_path = os.path.abspath(...)`). -/
def outAbs (env : Env) (output_path : String) : FPath :=
  pyAbspath env.cwd output_path

/-- The parent directory (`os.path.dirname(out_path) or os.getcwd()`). -/
def outDirOf (env : Env) (output_path : String) : FPath :=
  if pyDirname (outAbs env output_path) == "" then env.cwd
  else pyDirname (outAbs env output_path)

/-- The path actually written: only when `os.path.splitext` reports an
empty extension is `.pdf` appended. -/
def finalOut (env : Env) (output_path : String) : FPath :=
  let pe := pySplitext (outAbs env output_path)
  if pe.2 == "" then pe.1 ++ ".pdf" else outAbs env output_path

/-- One `merger.append(pdf)`: read the file and append its pages. -/
def mergerAppend (fs : FS) (acc : List Nat) (p : FPath) : Except PyErr (List Nat) :=
  match fs.read p with
  | some (FData.pdf pages) => Except.ok (acc ++ pages)
  | _ => Except.error (PyErr.libError ("could not read PDF: " ++ p))

/-- The `for pdf in pdf_paths: merger.append(pdf)` loop. -/
def appendLoop (fs : FS) : List FPath → List Nat → Except PyErr (List Nat)
  | [], acc => Except.ok acc
  | p :: rest, acc =>
    match mergerAppend fs acc p with
    | Except.ok acc1 => appendLoop fs rest acc1
    | Except.error e => Except.error e

/-- The `for f in files:` loop of `merge_pdfs`: pass `.pdf` inputs
through, convert supported non-PDF inputs into the temp directory, and
fail on unsupported inputs. -/
def convertLoop (env : Env) (tmpdir : FPath) :
    List FPath → FS → List FPath → Except PyErr (List FPath) × FS
  | [], fs, acc => (Except.ok acc.reverse, fs)
  | f :: rest, fs, acc =>
    if lowerStr (pySuffix f) == ".pdf" then
      convertLoop env tmpdir rest fs (f :: acc)
    else if is_supported_nonpdf env f then
      match convert_to_pdf env fs f (some tmpdir) with
      | (Except.ok outPdf, fs1) => convertLoop env tmpdir rest fs1 (outPdf :: acc)
      | (Except.error e, fs1) => (Except.error e, fs1)
    else
      (Except.error (PyErr.valueError ("Unsupported input type: " ++ f)), fs)

/-- The body of the `try:` block in `merge_pdfs`: conversions, the
append loop, the suffix normalisation, and the final write (which fails
when the output path is not writable). -/
def mergeBody (env : Env) (tmpdir : FPath) (files : List FPath)
    (output_path : String) (fs : FS) : Except PyErr FPath × FS :=
  match convertLoop env tmpdir files fs [] with
  | (Except.error e, fs1) => (Except.error e, fs1)
  | (Except.ok pdf_paths, fs1) =>
    match appendLoop fs1 pdf_paths [] with
    | Except.error e => (Except.error e, fs1)
    | Except.ok pages =>
      let out2 := finalOut env output_path
      if env.writable out2 then
        (Except.ok out2, fs1.write out2 (FData.pdf pages))
      else
        (Except.error (PyErr.ioError ("Permission denied: " ++ out2)), fs1)

/-- The `except FileExistsError: raise / except Exception as e: raise
MergeError(...) from e` clauses. -/
def wrapTryExcept : Except PyErr FPath → Except PyErr FPath
  | Except.error (PyErr.fileExistsError m) => Except.error (PyErr.fileExistsError m)
  | Except.error e =>
    Except.error (PyErr.mergeError ("Failed to merge PDFs: " ++ e.msg) e)
  | Except.ok v => Except.ok v

/-- `pdfmerge.merge_pdfs`.  The fresh name chosen by
`tempfile.TemporaryDirectory()` is passed in as `tmpdir`
(externalising the only nondeterministic choice made by the call). -/
def merge_pdfs (env : Env) (fs0 : FS) (input_files : List String)
    (output_path : String) (overwrite : Bool) (tmpdir : FPath) :
    Except PyErr FPath × FS :=
  let files := input_files.filter (fun p => pyStrip p != "")
  if files.isEmpty then
    (Except.error (PyErr.valueError ("No input PDF files provided.")), fs0)
  else
    match files.find? (fun f => !(fs0.isfile f)) with
    | some f => (Except.error (PyErr.valueError ("Input file not found: " ++ f)), fs0)
    | none =>
      let out_path := outAbs env output_path
      let fs1 := fs0.makedirs (outDirOf env output_path)
      if fs1.isdir out_path then
        (Except.error (PyErr.valueError
          ("Output path points to a directory, not a file.")), fs1)
      else if fs1.pathExists out_path && !overwrite then
        (Except.error (PyErr.fileExistsError
          ("Output file already exists: " ++ out_path)), fs1)
      else
        let fs2 := fs1.mkTempDir tmpdir
        let r := mergeBody env tmpdir files output_path fs2
        (wrapTryExcept r.1, r.2.removeTree tmpdir)

/-! ## Specification-side descriptions used in refinement statements -/

/-- Per-character escaping table: the specification-side description of
what `_escape_xml` does to each character. -/
def escChar (c : Char) : List Char :=
  if c = '&' then ("&amp;").data
  else if c = '<' then ("&lt;").data
  else if c = '>' then ("&gt;").data
  else if c = Char.ofNat 34 then ("&quot;").data
  else if c = Char.ofNat 39 then ("&#39;").data
  else [c]

/-- The type-tag prefix of the temporary file name chosen by
`convert_to_pdf` for a supported extension class. -/
def typeTag (ext : String) : String :=
  if IMAGE_EXTS.contains ext then "img_"
  else if TEXT_EXTS.contains ext then "txt_"
  else "docx_"

/-! ## Concrete fixtures used by the witness and counterexample theorems -/

/-- An environment in which every external library call succeeds. -/
def okEnv : Env where
  cwd := "/w"
  tmpRoot := "/tmp"
  hasIfvalid := true
  encode := fun _ d => Except.ok [d]
  transpose := fun d => Except.ok (d + 100)
  layout := fun bs => [bs.length]
  hasDocx := false
  docxConvert := fun d => Except.ok [d]
  writable := fun _ => true

/-- An environment in which no output path can be opened for writing. -/
def roEnv : Env := { okEnv with writable := fun _ => false }

/-- An environment whose encoder rejects the orientation-correcting
call with a rotation-related message but accepts every other call. -/
def rotEnv : Env :=
  { okEnv with
    encode := fun o d =>
      if o.auto_orient == some true then Except.error ("bad Rotation value")
      else Except.ok [d + 1] }

/-- An environment whose encoder rejects the orientation-correcting
call with a message unrelated to rotation. -/
def boomEnv : Env :=
  { okEnv with
    encode := fun o d =>
      if o.auto_orient == some true then Except.error ("boom")
      else Except.ok [d + 1] }

/-- A small filesystem with two PDF inputs, a text input, an image
input, an unsupported input, and some pre-existing output files. -/
def fsAB : FS where
  files := [("/a.pdf", FData.pdf [1, 2]), ("/b.pdf", FData.pdf [3, 4, 5]),
            ("/t.txt", FData.txt [some 'h', none, some 'i']),
            ("/s.txt", FData.txt
              [some 'a', none, some '&', some '\n', some '\n', some 'b']),
            ("/d2/t.txt", FData.txt [some 'z']),
            ("/x.xyz", FData.pdf [9]), ("/i.png", FData.img 7),
            ("/d/old.pdf", FData.pdf [8]), ("/d/oo.pdf", FData.pdf [7])]
  dirs := ["/", "/d", "/w"]

/-! ## Basic lemmas about the filesystem model -/

theorem find?_filter_keep {β : Type} {l : List (FPath × β)} {pred : FPath × β → Bool}
    {p : FPath} (h : ∀ e : FPath × β, e.1 = p → pred e = true) :
    (l.filter pred).find? (fun e => e.1 == p) = l.find? (fun e => e.1 == p) := by
  induction l with
  | nil => rfl
  | cons x xs ih =>
    by_cases hx : x.1 = p
    · have hpx : pred x = true := h x hx
      simp [List.filter_cons, hpx, List.find?_cons, hx]
    · by_cases hpx : pred x = true
      · simp [List.filter_cons, hpx, List.find?_cons, hx, ih]
      · simp only [Bool.not_eq_true] at hpx
        simp [List.filter_cons, hpx, List.find?_cons, hx, ih]

theorem FS.read_write_self (fs : FS) (p : FPath) (d : FData) :
    (fs.write p d).read p = some d := by
  simp [FS.write, FS.read, List.find?_cons]

theorem FS.read_write_ne (fs : FS) {p q : FPath} (h : p ≠ q) (d : FData) :
    (fs.write q d).read p = fs.read p := by
  have hq : (q == p) = false := by
    simp only [beq_eq_false_iff_ne]; exact fun hqp => h hqp.symm
  simp only [FS.write, FS.read, List.find?_cons, hq]
  rw [find?_filter_keep]
  intro e he
  simp [he, beq_eq_false_iff_ne, h]

theorem FS.read_makedirs (fs : FS) (d p : FPath) :
    (fs.makedirs d).read p = fs.read p := by
  simp only [FS.makedirs]
  split <;> rfl

theorem FS.read_mkTempDir (fs : FS) (d p : FPath) :
    (fs.mkTempDir d).read p = fs.read p := rfl

theorem FS.read_removeTree (fs : FS) {d p : FPath} (h : atOrUnder d p = false) :
    (fs.removeTree d).read p = fs.read p := by
  simp only [FS.removeTree, FS.read]
  rw [find?_filter_keep]
  intro e he
  simp [he, h]

theorem FS.removeTree_clean (fs : FS) (d : FPath) :
    ((fs.removeTree d).files.all (fun e => !(atOrUnder d e.1)) = true) ∧
    ((fs.removeTree d).dirs.all (fun q => !(atOrUnder d q)) = true) := by
  constructor <;>
  · simp only [FS.removeTree, List.all_eq_true]
    intro x hx
    exact (List.mem_filter.mp hx).2

/-! ## Lemmas about the merge pipeline -/

theorem convertLoop_all_pdf (env : Env) (tmpdir : FPath) :
    ∀ (l : List FPath) (fs : FS) (acc : List FPath),
    (∀ f ∈ l, lowerStr (pySuffix f) = ".pdf") →
    convertLoop env tmpdir l fs acc = (Except.ok (acc.reverse ++ l), fs)
  | [], fs, acc, _ => by simp [convertLoop]
  | f :: rest, fs, acc, h => by
    have hf : (lowerStr (pySuffix f) == ".pdf") = true := by
      simp [h f (by simp)]
    simp only [convertLoop, hf, if_true]
    rw [convertLoop_all_pdf env tmpdir rest fs (f :: acc)
      (fun g hg => h g (by simp [hg]))]
    simp

theorem appendLoop_pages (fs : FS) (pg : FPath → List Nat) :
    ∀ (l : List FPath) (acc : List Nat),
    (∀ f ∈ l, fs.read f = some (FData.pdf (pg f))) →
    appendLoop fs l acc = Except.ok (acc ++ l.flatMap pg)
  | [], acc, _ => by simp [appendLoop]
  | p :: rest, acc, h => by
    have hp := h p (by simp)
    simp only [appendLoop, mergerAppend, hp]
    rw [appendLoop_pages fs pg rest (acc ++ pg p)
      (fun g hg => h g (by simp [hg]))]
    simp

/-- The full successful run of `merge_pdfs` on a list of existing plain
PDF inputs: every validation passes, no conversion happens, the pages
are concatenated in input order and written to the normalised output
path, and the temporary directory is removed. -/
theorem merge_pdfs_success
    (env : Env) (fs0 : FS) (inputs : List String) (output_path : String)
    (overwrite : Bool) (tmpdir : FPath) (pg : FPath → List Nat)
    (hne : inputs ≠ [])
    (hblank : ∀ f ∈ inputs, pyStrip f ≠ "")
    (hpdf : ∀ f ∈ inputs, lowerStr (pySuffix f) = ".pdf")
    (hread : ∀ f ∈ inputs, fs0.read f = some (FData.pdf (pg f)))
    (hnd : (fs0.makedirs (outDirOf env output_path)).isdir
      (outAbs env output_path) = false)
    (hov : ((fs0.makedirs (outDirOf env output_path)).pathExists
      (outAbs env output_path) && !overwrite) = false)
    (hw : env.writable (finalOut env output_path) = true) :
    merge_pdfs env fs0 inputs output_path overwrite tmpdir
      = (Except.ok (finalOut env output_path),
         ((((fs0.makedirs (outDirOf env output_path)).mkTempDir tmpdir).write
            (finalOut env output_path)
            (FData.pdf (inputs.flatMap pg))).removeTree tmpdir)) := by
  have hfilter : inputs.filter (fun p => pyStrip p != "") = inputs :=
    List.filter_eq_self.mpr (fun a ha => bne_iff_ne.mpr (hblank a ha))
  have hempty : inputs.isEmpty = false := List.isEmpty_eq_false.mpr hne
  have hfind : inputs.find? (fun f => !(fs0.isfile f)) = none :=
    List.find?_eq_none.mpr (fun f hf => by simp [FS.isfile, hread f hf])
  have hbody : mergeBody env tmpdir inputs output_path
      ((fs0.makedirs (outDirOf env output_path)).mkTempDir tmpdir)
      = (Except.ok (finalOut env output_path),
         (((fs0.makedirs (outDirOf env output_path)).mkTempDir tmpdir).write
            (finalOut env output_path) (FData.pdf (inputs.flatMap pg)))) := by
    simp only [mergeBody]
    rw [convertLoop_all_pdf env tmpdir inputs _ [] hpdf]
    simp only [List.reverse_nil, List.nil_append]
    rw [appendLoop_pages _ pg inputs []
      (fun f hf => by rw [FS.read_mkTempDir, FS.read_makedirs]; exact hread f hf)]
    simp [hw]
  simp only [merge_pdfs, hfilter, hempty, hfind, Bool.false_eq_true, if_false]
  simp only [hnd, hov, Bool.false_eq_true, if_false]
  rw [hbody]
  simp [wrapTryExcept]

/-- **C1**: for every valid ordered list of existing PDF inputs,
`merge_pdfs` succeeds and the page sequence of the written output is
exactly the concatenation of the inputs page sequences in input order;
in particular the output page count is the sum of the input page counts
and no input page is dropped, duplicated or reordered. -/
theorem merge_pdfs_concatenates_pages
    (env : Env) (fs0 : FS) (inputs : List String) (output_path : String)
    (overwrite : Bool) (tmpdir : FPath) (pg : FPath → List Nat)
    (hne : inputs ≠ [])
    (hblank : ∀ f ∈ inputs, pyStrip f ≠ "")
    (hpdf : ∀ f ∈ inputs, lowerStr (pySuffix f) = ".pdf")
    (hread : ∀ f ∈ inputs, fs0.read f = some (FData.pdf (pg f)))
    (hnd : (fs0.makedirs (outDirOf env output_path)).isdir
      (outAbs env output_path) = false)
    (hov : ((fs0.makedirs (outDirOf env output_path)).pathExists
      (outAbs env output_path) && !overwrite) = false)
    (hw : env.writable (finalOut env output_path) = true)
    (hout : atOrUnder tmpdir (finalOut env output_path) = false) :
    (merge_pdfs env fs0 inputs output_path overwrite tmpdir).1
      = Except.ok (finalOut env output_path) ∧
    (merge_pdfs env fs0 inputs output_path overwrite tmpdir).2.read
      (finalOut env output_path) = some (FData.pdf (inputs.flatMap pg)) ∧
    (inputs.flatMap pg).length
      = (inputs.map (fun f => (pg f).length)).sum := by
  have h := merge_pdfs_success env fs0 inputs output_path overwrite tmpdir pg
    hne hblank hpdf hread hnd hov hw
  refine ⟨by rw [h], ?_, ?_⟩
  · rw [h]
    dsimp only
    rw [FS.read_removeTree _ hout, FS.read_write_self]
  · rw [List.length_flatMap]
    rfl

/-- Witness for C1 on a concrete two-file merge. -/
theorem merge_pdfs_concatenates_pages_witness :
    (merge_pdfs okEnv fsAB ["/a.pdf", "/b.pdf"] "/d/out.pdf" false "/tmp/t1").1
      = Except.ok ("/d/out.pdf") ∧
    (merge_pdfs okEnv fsAB ["/a.pdf", "/b.pdf"] "/d/out.pdf" false "/tmp/t1").2.read
      ("/d/out.pdf") = some (FData.pdf [1, 2, 3, 4, 5]) := by
  have h := merge_pdfs_concatenates_pages okEnv fsAB ["/a.pdf", "/b.pdf"]
    "/d/out.pdf" false "/tmp/t1"
    (fun f => if f = "/a.pdf" then [1, 2] else [3, 4, 5])
    (by decide) (by decide) (by decide) (by decide) (by decide) (by decide)
    (by decide) (by decide)
  exact ⟨h.1, h.2.1⟩

theorem pySplitext_ext_empty {p : FPath} (h : (pySplitext p).2 = "") :
    (pySplitext p).1 = p := by
  unfold pySplitext at h ⊢
  rcases hm : lastIdxOf '.' p.data with _ | d <;> simp only [hm] at h ⊢
  split at h
  · rename_i hcond
    rw [if_pos hcond]
    have hdrop : p.data.drop d = [] := by
      have h2 := congrArg String.data h
      simpa using h2
    have ht : p.data.take d = p.data :=
      List.take_of_length_le (List.drop_eq_nil_iff.mp hdrop)
    show String.mk (p.data.take d) = p
    rw [ht]
  · rename_i hcond
    rw [if_neg hcond]

/-- **C2** as stated is false on the code: an output path with a
nonempty extension different from `.pdf` is written exactly as
supplied.  Merging to `/d/out.txt` returns and writes `/d/out.txt`,
not `/d/out.txt.pdf`. -/
theorem merge_pdfs_suffix_counterexample :
    strEndsWith ("/d/out.txt") (".pdf") = false ∧
    (merge_pdfs okEnv fsAB ["/a.pdf"] "/d/out.txt" false "/tmp/t1").1
      = Except.ok ("/d/out.txt") ∧
    (merge_pdfs okEnv fsAB ["/a.pdf"] "/d/out.txt" false "/tmp/t1").2.read
      ("/d/out.txt") = some (FData.pdf [1, 2]) ∧
    (merge_pdfs okEnv fsAB ["/a.pdf"] "/d/out.txt" false "/tmp/t1").2.read
      ("/d/out.txt" ++ ".pdf") = none := by
  decide

/-- **C2** amended: `merge_pdfs` appends `.pdf` exactly when
`os.path.splitext` reports an empty extension on the absolutised output
path; an output path with any nonempty extension (whether `.pdf` or
not) is returned and written exactly as supplied. -/
theorem merge_pdfs_output_suffix
    (env : Env) (fs0 : FS) (inputs : List String) (output_path : String)
    (overwrite : Bool) (tmpdir : FPath) (pg : FPath → List Nat)
    (hne : inputs ≠ [])
    (hblank : ∀ f ∈ inputs, pyStrip f ≠ "")
    (hpdf : ∀ f ∈ inputs, lowerStr (pySuffix f) = ".pdf")
    (hread : ∀ f ∈ inputs, fs0.read f = some (FData.pdf (pg f)))
    (hnd : (fs0.makedirs (outDirOf env output_path)).isdir
      (outAbs env output_path) = false)
    (hov : ((fs0.makedirs (outDirOf env output_path)).pathExists
      (outAbs env output_path) && !overwrite) = false)
    (hw : env.writable (finalOut env output_path) = true)
    (hout : atOrUnder tmpdir (finalOut env output_path) = false) :
    (merge_pdfs env fs0 inputs output_path overwrite tmpdir).1
      = Except.ok (finalOut env output_path) ∧
    (merge_pdfs env fs0 inputs output_path overwrite tmpdir).2.isfile
      (finalOut env output_path) = true ∧
    ((pySplitext (outAbs env output_path)).2 = "" →
      finalOut env output_path = outAbs env output_path ++ ".pdf") ∧
    ((pySplitext (outAbs env output_path)).2 ≠ "" →
      finalOut env output_path = outAbs env output_path) := by
  have h := merge_pdfs_success env fs0 inputs output_path overwrite tmpdir pg
    hne hblank hpdf hread hnd hov hw
  refine ⟨by rw [h], ?_, ?_, ?_⟩
  · rw [h]
    dsimp only
    rw [FS.isfile, FS.read_removeTree _ hout, FS.read_write_self]
    rfl
  · intro hext
    rw [finalOut, if_pos (by simpa using hext), pySplitext_ext_empty hext]
  · intro hext
    rw [finalOut, if_neg (by simpa using hext)]

/-- Witness for the amended C2: an extensionless output gets `.pdf`
appended, an output ending in `.txt` is written as supplied. -/
theorem merge_pdfs_output_suffix_witness :
    (merge_pdfs okEnv fsAB ["/a.pdf"] "/d/out" false "/tmp/t1").1
      = Except.ok ("/d/out.pdf") ∧
    (merge_pdfs okEnv fsAB ["/a.pdf"] "/d/nn.txt" false "/tmp/t1").1
      = Except.ok ("/d/nn.txt") := by
  have h1 := merge_pdfs_output_suffix okEnv fsAB ["/a.pdf"] "/d/out" false
    "/tmp/t1" (fun _ => [1, 2]) (by decide) (by decide) (by decide) (by decide)
    (by decide) (by decide) (by decide) (by decide)
  have h2 := merge_pdfs_output_suffix okEnv fsAB ["/a.pdf"] "/d/nn.txt" false
    "/tmp/t1" (fun _ => [1, 2]) (by decide) (by decide) (by decide) (by decide)
    (by decide) (by decide) (by decide) (by decide)
  exact ⟨h1.1, h2.1⟩

/-- **C9**: the existence and overwrite check of `merge_pdfs` is applied
to the absolutised output path as supplied, before the `.pdf` suffix is
appended.  Hence with an extensionless output path, `overwrite = false`
and nothing at the supplied path, the call succeeds even though a file
already exists at the suffix-normalised path, and that file is replaced
by the merged output. -/
theorem merge_pdfs_checks_presuffix_path
    (env : Env) (fs0 : FS) (inputs : List String) (output_path : String)
    (tmpdir : FPath) (pg : FPath → List Nat) (old : FData)
    (hne : inputs ≠ [])
    (hblank : ∀ f ∈ inputs, pyStrip f ≠ "")
    (hpdf : ∀ f ∈ inputs, lowerStr (pySuffix f) = ".pdf")
    (hread : ∀ f ∈ inputs, fs0.read f = some (FData.pdf (pg f)))
    (hext : (pySplitext (outAbs env output_path)).2 = "")
    (hnothing : (fs0.makedirs (outDirOf env output_path)).pathExists
      (outAbs env output_path) = false)
    (hold : fs0.read (outAbs env output_path ++ ".pdf") = some old)
    (hw : env.writable (finalOut env output_path) = true)
    (hout : atOrUnder tmpdir (finalOut env output_path) = false) :
    (merge_pdfs env fs0 inputs output_path false tmpdir).1
      = Except.ok (outAbs env output_path ++ ".pdf") ∧
    (merge_pdfs env fs0 inputs output_path false tmpdir).2.read
      (outAbs env output_path ++ ".pdf")
      = some (FData.pdf (inputs.flatMap pg)) := by
  have hfin : finalOut env output_path = outAbs env output_path ++ ".pdf" := by
    rw [finalOut, if_pos (by simpa using hext), pySplitext_ext_empty hext]
  have hnd : (fs0.makedirs (outDirOf env output_path)).isdir
      (outAbs env output_path) = false := by
    have := hnothing
    rw [FS.pathExists, Bool.or_eq_false_iff] at this
    exact this.2
  have h := merge_pdfs_success env fs0 inputs output_path false tmpdir pg
    hne hblank hpdf hread hnd (by simp [hnothing]) hw
  constructor
  · rw [h, ← hfin]
  · rw [h]
    dsimp only
    rw [← hfin, FS.read_removeTree _ hout, FS.read_write_self]

/-- Witness for C9: `/d/oo` is merged to with `overwrite = false` while
`/d/oo.pdf` already holds a one-page PDF; the call succeeds and the old
file is replaced by the new two-page merge. -/
theorem merge_pdfs_checks_presuffix_path_witness :
    fsAB.read ("/d/oo.pdf") = some (FData.pdf [7]) ∧
    (merge_pdfs okEnv fsAB ["/a.pdf"] "/d/oo" false "/tmp/t1").1
      = Except.ok ("/d/oo.pdf") ∧
    (merge_pdfs okEnv fsAB ["/a.pdf"] "/d/oo" false "/tmp/t1").2.read
      ("/d/oo.pdf") = some (FData.pdf [1, 2]) := by
  have h := merge_pdfs_checks_presuffix_path okEnv fsAB ["/a.pdf"] "/d/oo"
    "/tmp/t1" (fun _ => [1, 2]) (FData.pdf [7]) (by decide) (by decide)
    (by decide) (by decide) (by decide) (by decide) (by decide) (by decide)
    (by decide)
  exact ⟨by decide, h.1, h.2⟩

/-- **C3**: every validation failure of `merge_pdfs` (empty input list
after discarding blank entries, missing input file, output path being a
directory, existing output without overwrite) is surfaced with the
filesystem completely unchanged.  The hypothesis `hwf` is the
filesystem invariant that the parent directory of an existing path
itself exists (so `os.makedirs(..., exist_ok=True)` is a no-op). -/
theorem merge_pdfs_validation_no_side_effects
    (env : Env) (fs0 : FS) (inputs : List String) (output_path : String)
    (overwrite : Bool) (tmpdir : FPath)
    (hwf : fs0.pathExists (outAbs env output_path) = true →
      fs0.dirs.contains (outDirOf env output_path) = true) :
    (inputs.filter (fun p => pyStrip p != "") = [] →
      merge_pdfs env fs0 inputs output_path overwrite tmpdir
        = (Except.error (PyErr.valueError ("No input PDF files provided.")),
           fs0)) ∧
    (∀ f, (inputs.filter (fun p => pyStrip p != "")).find?
        (fun g => !(fs0.isfile g)) = some f →
      merge_pdfs env fs0 inputs output_path overwrite tmpdir
        = (Except.error (PyErr.valueError ("Input file not found: " ++ f)),
           fs0)) ∧
    ((inputs.filter (fun p => pyStrip p != "")).find?
        (fun g => !(fs0.isfile g)) = none →
      inputs.filter (fun p => pyStrip p != "") ≠ [] →
      fs0.isdir (outAbs env output_path) = true →
      merge_pdfs env fs0 inputs output_path overwrite tmpdir
        = (Except.error (PyErr.valueError
            ("Output path points to a directory, not a file.")), fs0)) ∧
    ((inputs.filter (fun p => pyStrip p != "")).find?
        (fun g => !(fs0.isfile g)) = none →
      inputs.filter (fun p => pyStrip p != "") ≠ [] →
      fs0.isdir (outAbs env output_path) = false →
      fs0.pathExists (outAbs env output_path) = true →
      overwrite = false →
      merge_pdfs env fs0 inputs output_path overwrite tmpdir
        = (Except.error (PyErr.fileExistsError
            ("Output file already exists: " ++ outAbs env output_path)),
           fs0)) := by
  refine ⟨?_, ?_, ?_, ?_⟩
  · intro hf
    simp only [merge_pdfs, hf, List.isEmpty_nil, if_true]
  · intro f hf
    have hne : inputs.filter (fun p => pyStrip p != "") ≠ [] := by
      intro he
      rw [he] at hf
      simp at hf
    have hempty : (inputs.filter (fun p => pyStrip p != "")).isEmpty = false :=
      List.isEmpty_eq_false.mpr hne
    simp only [merge_pdfs, hempty, Bool.false_eq_true, if_false, hf]
  · intro hfind hne hdir
    have hempty : (inputs.filter (fun p => pyStrip p != "")).isEmpty = false :=
      List.isEmpty_eq_false.mpr hne
    have hmk : fs0.makedirs (outDirOf env output_path) = fs0 := by
      rw [FS.makedirs,
        if_pos (hwf (by rw [FS.pathExists, hdir, Bool.or_true]))]
    simp only [merge_pdfs, hempty, Bool.false_eq_true, if_false, hfind, hmk,
      hdir, if_true]
  · intro hfind hne hdir hex hov
    have hempty : (inputs.filter (fun p => pyStrip p != "")).isEmpty = false :=
      List.isEmpty_eq_false.mpr hne
    have hmk : fs0.makedirs (outDirOf env output_path) = fs0 := by
      rw [FS.makedirs, if_pos (hwf hex)]
    simp only [merge_pdfs, hempty, Bool.false_eq_true, if_false, hfind, hmk,
      hdir, hex, hov, Bool.not_false, Bool.true_and, if_true]

/-- Witness for C3: a blank-only input list is rejected with the
filesystem unchanged. -/
theorem merge_pdfs_validation_no_side_effects_witness :
    merge_pdfs okEnv fsAB [" "] "/d/out.pdf" false "/tmp/t1"
      = (Except.error (PyErr.valueError ("No input PDF files provided.")),
         fsAB) := by
  exact (merge_pdfs_validation_no_side_effects okEnv fsAB [" "] "/d/out.pdf"
    false "/tmp/t1" (by decide)).1 (by decide)

/-- **C4**: on every exit path of `merge_pdfs` (normal return,
validation failure, conversion failure, write failure) the scoped
temporary directory and every file created inside it are removed:
provided the temporary name is fresh and the output parent directory
does not alias into it, the final filesystem holds no file and no
directory at or under `tmpdir`. -/
theorem merge_pdfs_temp_cleanup
    (env : Env) (fs0 : FS) (inputs : List String) (output_path : String)
    (overwrite : Bool) (tmpdir : FPath)
    (hfile : fs0.files.all (fun e => !(atOrUnder tmpdir e.1)) = true)
    (hdirs : fs0.dirs.all (fun q => !(atOrUnder tmpdir q)) = true)
    (hodir : atOrUnder tmpdir (outDirOf env output_path) = false) :
    ((merge_pdfs env fs0 inputs output_path overwrite tmpdir).2.files.all
      (fun e => !(atOrUnder tmpdir e.1)) = true) ∧
    ((merge_pdfs env fs0 inputs output_path overwrite tmpdir).2.dirs.all
      (fun q => !(atOrUnder tmpdir q)) = true) := by
  have hmkfiles : (fs0.makedirs (outDirOf env output_path)).files = fs0.files := by
    rw [FS.makedirs]
    split <;> rfl
  have hmkdirs : (fs0.makedirs (outDirOf env output_path)).dirs.all
      (fun q => !(atOrUnder tmpdir q)) = true := by
    rw [FS.makedirs]
    split
    · exact hdirs
    · simp only [List.all_cons, hodir, Bool.not_false, Bool.true_and]
      exact hdirs
  by_cases h1 : (inputs.filter (fun p => pyStrip p != "")).isEmpty
  · simp only [merge_pdfs, h1, if_true]
    exact ⟨hfile, hdirs⟩
  · have hempty : (inputs.filter (fun p => pyStrip p != "")).isEmpty = false :=
      Bool.not_eq_true _ ▸ (Bool.eq_false_iff.mpr h1)
    rcases hf : (inputs.filter (fun p => pyStrip p != "")).find?
        (fun f => !(fs0.isfile f)) with _ | f
    · simp only [merge_pdfs, hempty, Bool.false_eq_true, if_false, hf]
      split
      · exact ⟨by rw [hmkfiles]; exact hfile, hmkdirs⟩
      · split
        · exact ⟨by rw [hmkfiles]; exact hfile, hmkdirs⟩
        · exact FS.removeTree_clean _ tmpdir
    · simp only [merge_pdfs, hempty, Bool.false_eq_true, if_false, hf]
      exact ⟨hfile, hdirs⟩

/-- Witness for C4: a merge that converts a text file into the
temporary directory leaves nothing at or under it afterwards. -/
theorem merge_pdfs_temp_cleanup_witness :
    ((merge_pdfs okEnv fsAB ["/a.pdf", "/t.txt"] "/d/out.pdf" false
      "/tmp/t1").2.files.all (fun e => !(atOrUnder ("/tmp/t1") e.1)) = true) ∧
    ((merge_pdfs okEnv fsAB ["/a.pdf", "/t.txt"] "/d/out.pdf" false
      "/tmp/t1").2.dirs.all (fun q => !(atOrUnder ("/tmp/t1") q)) = true) := by
  exact merge_pdfs_temp_cleanup okEnv fsAB ["/a.pdf", "/t.txt"] "/d/out.pdf"
    false "/tmp/t1" (by decide) (by decide) (by decide)

theorem textToPdf_error_shape (env : Env) (fs : FS) (a b : FPath) :
    ∀ e, (textToPdf env fs a b).1 = Except.error e → e.isFileExists = false := by
  intro e h
  unfold textToPdf at h
  split at h
  · dsimp only at h
    exact Except.noConfusion h
  · dsimp only at h
    injection h with h2
    subst h2
    rfl

theorem imageToPdf_error_shape (env : Env) (fs : FS) (a b c : FPath) :
    ∀ e, (imageToPdf env fs a b c).1 = Except.error e → e.isFileExists = false := by
  intro e h
  simp only [imageToPdf] at h
  rcases hrd : fs.read a with _ | d0
  all_goals rw [hrd] at h
  · dsimp only at h
    injection h with h2
    subst h2
    rfl
  · rcases d0 with pages | di | bytes | dd | _
    case pdf | txt | docx | empty =>
      dsimp only at h
      injection h with h2
      subst h2
      rfl
    case img =>
      dsimp only at h
      rcases hpe : env.encode
          { auto_orient := some true, rotation_ifvalid := env.hasIfvalid } di
        with e1 | pages1
      all_goals rw [hpe] at h
      · dsimp only at h
        by_cases hm : (!containsSub (("invalid rotation").data) ((lowerStr e1).data)
            && !containsSub (("rotation").data) ((lowerStr e1).data)) = true
        · rw [if_pos hm] at h
          dsimp only at h
          injection h with h2
          subst h2
          rfl
        · rw [if_neg hm] at h
          rcases htr : env.transpose di with e2 | fixed
          all_goals rw [htr] at h
          · dsimp only at h
            rcases hf : env.encode
                { auto_orient := none, rotation_ifvalid := false } di
              with e3 | pages3
            all_goals rw [hf] at h
            · dsimp only at h
              injection h with h2
              subst h2
              rfl
            · dsimp only at h
              exact Except.noConfusion h
          · dsimp only at h
            rcases hs : env.encode
                { auto_orient := some false, rotation_ifvalid := false } fixed
              with e3 | pages3
            all_goals rw [hs] at h
            · dsimp only at h
              rcases hf : env.encode
                  { auto_orient := none, rotation_ifvalid := false } di
                with e4 | pages4
              all_goals rw [hf] at h
              · dsimp only at h
                injection h with h2
                subst h2
                rfl
              · dsimp only at h
                exact Except.noConfusion h
            · dsimp only at h
              exact Except.noConfusion h
      · dsimp only at h
        exact Except.noConfusion h

theorem convert_to_pdf_error_shape (env : Env) (fs : FS) (p : FPath)
    (t : Option FPath) :
    ∀ e, (convert_to_pdf env fs p t).1 = Except.error e →
      e.isFileExists = false := by
  intro e h
  simp only [convert_to_pdf] at h
  by_cases h1 : (!fs.isfile (pyAbspath env.cwd p)) = true
  · rw [if_pos h1] at h
    dsimp only at h
    injection h with h2
    subst h2
    rfl
  · rw [if_neg h1] at h
    by_cases h2 : IMAGE_EXTS.contains (lowerStr (pySuffix (pyAbspath env.cwd p))) = true
    · rw [if_pos h2] at h
      rcases hi : imageToPdf env fs (pyAbspath env.cwd p)
          (pyJoin (t.getD env.tmpRoot)
            ("img_" ++ pyStem (pyAbspath env.cwd p) ++ ".pdf"))
          (t.getD env.tmpRoot) with ⟨ir, fs1⟩
      rw [hi] at h
      rcases ir with e1 | u
      · dsimp only at h
        injection h with h3
        subst h3
        exact imageToPdf_error_shape env fs _ _ _ e1 (by rw [hi])
      · dsimp only at h
        exact Except.noConfusion h
    · rw [if_neg h2] at h
      by_cases h3 : TEXT_EXTS.contains (lowerStr (pySuffix (pyAbspath env.cwd p))) = true
      · rw [if_pos h3] at h
        rcases ht : textToPdf env fs (pyAbspath env.cwd p)
            (pyJoin (t.getD env.tmpRoot)
              ("txt_" ++ pyStem (pyAbspath env.cwd p) ++ ".pdf")) with ⟨tr, fs1⟩
        rw [ht] at h
        rcases tr with e1 | u
        · dsimp only at h
          injection h with h4
          subst h4
          exact textToPdf_error_shape env fs _ _ e1 (by rw [ht])
        · dsimp only at h
          exact Except.noConfusion h
      · rw [if_neg h3] at h
        by_cases h4 : DOCX_EXTS.contains (lowerStr (pySuffix (pyAbspath env.cwd p))) = true
        · rw [if_pos h4] at h
          by_cases h5 : (!env.hasDocx) = true
          · rw [if_pos h5] at h
            dsimp only at h
            injection h with h6
            subst h6
            rfl
          · rw [if_neg h5] at h
            rcases hrd : fs.read (pyAbspath env.cwd p) with _ | d0
            all_goals rw [hrd] at h
            · dsimp only at h
              injection h with h6
              subst h6
              rfl
            · rcases d0 with pages | di | bytes | dd | _
              · dsimp only at h
                injection h with h6
                subst h6
                rfl
              · dsimp only at h
                injection h with h6
                subst h6
                rfl
              · dsimp only at h
                injection h with h6
                subst h6
                rfl
              · dsimp only at h
                rcases hdc : env.docxConvert dd with e1 | pages2
                all_goals rw [hdc] at h
                · dsimp only at h
                  injection h with h6
                  subst h6
                  rfl
                · dsimp only at h
                  exact Except.noConfusion h
              · dsimp only at h
                injection h with h6
                subst h6
                rfl
        · rw [if_neg h4] at h
          dsimp only at h
          injection h with h6
          subst h6
          rfl

theorem convertLoop_error_shape (env : Env) (tmpdir : FPath) :
    ∀ (l : List FPath) (fs : FS) (acc : List FPath) (e : PyErr),
    (convertLoop env tmpdir l fs acc).1 = Except.error e →
      e.isFileExists = false
  | [], fs, acc, e => by
    intro h
    simp [convertLoop] at h
  | f :: rest, fs, acc, e => by
    intro h
    simp only [convertLoop] at h
    by_cases h1 : (lowerStr (pySuffix f) == ".pdf") = true
    · rw [if_pos h1] at h
      exact convertLoop_error_shape env tmpdir rest fs (f :: acc) e h
    · rw [if_neg h1] at h
      by_cases h2 : is_supported_nonpdf env f = true
      · rw [if_pos h2] at h
        rcases hcv : convert_to_pdf env fs f (some tmpdir) with ⟨cr, fs1⟩
        rw [hcv] at h
        rcases cr with e1 | outPdf
        · dsimp only at h
          injection h with h3
          subst h3
          exact convert_to_pdf_error_shape env fs f (some tmpdir) e1 (by rw [hcv])
        · dsimp only at h
          exact convertLoop_error_shape env tmpdir rest fs1 (outPdf :: acc) e h
      · rw [if_neg h2] at h
        dsimp only at h
        injection h with h3
        subst h3
        rfl

theorem appendLoop_error_shape (fs : FS) :
    ∀ (l : List FPath) (acc : List Nat) (e : PyErr),
    appendLoop fs l acc = Except.error e → e.isFileExists = false
  | [], acc, e => by
    intro h
    simp [appendLoop] at h
  | p :: rest, acc, e => by
    intro h
    rw [appendLoop] at h
    split at h
    · exact appendLoop_error_shape fs rest _ e h
    · rename_i e1 heq
      injection h with h2
      subst h2
      rw [mergerAppend] at heq
      split at heq
      · exact Except.noConfusion heq
      · injection heq with h3
        subst h3
        rfl

theorem mergeBody_error_shape (env : Env) (tmpdir : FPath)
    (files : List FPath) (output_path : String) (fs : FS) :
    ∀ e, (mergeBody env tmpdir files output_path fs).1 = Except.error e →
      e.isFileExists = false := by
  intro e h
  unfold mergeBody at h
  rcases hc : convertLoop env tmpdir files fs [] with ⟨cr, fs1⟩
  rw [hc] at h
  rcases cr with e1 | pdf_paths
  · dsimp only at h
    injection h with h2
    subst h2
    exact convertLoop_error_shape env tmpdir files fs [] e1 (by rw [hc])
  · dsimp only at h
    rcases ha : appendLoop fs1 pdf_paths [] with e2 | pages
    all_goals rw [ha] at h
    · dsimp only at h
      injection h with h2
      subst h2
      exact appendLoop_error_shape fs1 pdf_paths [] e2 ha
    · dsimp only at h
      by_cases hw : env.writable (finalOut env output_path) = true
      · rw [if_pos hw] at h
        dsimp only at h
        exact Except.noConfusion h
      · rw [if_neg hw] at h
        dsimp only at h
        injection h with h2
        subst h2
        rfl

theorem wrapTryExcept_not_FE {e : PyErr} (h : e.isFileExists = false) :
    wrapTryExcept (Except.error e)
      = Except.error (PyErr.mergeError ("Failed to merge PDFs: " ++ e.msg) e) := by
  cases e <;> first
    | rfl
    | (exfalso; simp [PyErr.isFileExists] at h)

/-- **C5**: once the pre-output validations pass, every failure arising
during conversion, concatenation or the final write is re-raised as a
`MergeError` carrying the original cause, and the `AlreadyExistsError`
raised by the overwrite check is propagated to the caller unchanged and
is never the payload produced by the generic wrapper. -/
theorem merge_pdfs_error_wrapping
    (env : Env) (fs0 : FS) (inputs : List String) (output_path : String)
    (overwrite : Bool) (tmpdir : FPath)
    (hne : (inputs.filter (fun p => pyStrip p != "")).isEmpty = false)
    (hfind : (inputs.filter (fun p => pyStrip p != "")).find?
      (fun f => !(fs0.isfile f)) = none)
    (hnd : (fs0.makedirs (outDirOf env output_path)).isdir
      (outAbs env output_path) = false) :
    (((fs0.makedirs (outDirOf env output_path)).pathExists
        (outAbs env output_path) && !overwrite) = true →
      (merge_pdfs env fs0 inputs output_path overwrite tmpdir).1
        = Except.error (PyErr.fileExistsError
            ("Output file already exists: " ++ outAbs env output_path))) ∧
    (((fs0.makedirs (outDirOf env output_path)).pathExists
        (outAbs env output_path) && !overwrite) = false →
      ∀ e, (merge_pdfs env fs0 inputs output_path overwrite tmpdir).1
          = Except.error e →
        ∃ c, e = PyErr.mergeError ("Failed to merge PDFs: " ++ c.msg) c ∧
          c.isFileExists = false) := by
  constructor
  · intro hex
    simp only [merge_pdfs, hne, Bool.false_eq_true, if_false, hfind, hnd, hex,
      if_true]
  · intro hex e h
    simp only [merge_pdfs, hne, Bool.false_eq_true, if_false, hfind, hnd,
      hex] at h
    try dsimp only at h
    rcases hr : (mergeBody env tmpdir (inputs.filter (fun p => pyStrip p != ""))
        output_path
        ((fs0.makedirs (outDirOf env output_path)).mkTempDir tmpdir)).1
      with e1 | v
    · rw [hr] at h
      have hshape := mergeBody_error_shape env tmpdir _ output_path _ e1 hr
      rw [wrapTryExcept_not_FE hshape] at h
      injection h with h2
      exact ⟨e1, h2.symm, hshape⟩
    · rw [hr] at h
      exact Except.noConfusion h

/-- Witness for C5: a merge whose output cannot be opened for writing
surfaces a `MergeError` wrapping the original failure. -/
theorem merge_pdfs_error_wrapping_witness :
    ∃ c, (merge_pdfs roEnv fsAB ["/a.pdf"] "/d/out.pdf" false "/tmp/t1").1
        = Except.error (PyErr.mergeError ("Failed to merge PDFs: " ++ c.msg) c) ∧
      c.isFileExists = false := by
  obtain ⟨c, hc, hcfe⟩ := (merge_pdfs_error_wrapping roEnv fsAB ["/a.pdf"]
    "/d/out.pdf" false "/tmp/t1" (by decide) (by decide) (by decide)).2
    (by decide)
    (PyErr.mergeError ("Failed to merge PDFs: Permission denied: /d/out.pdf")
      (PyErr.ioError ("Permission denied: /d/out.pdf")))
    (by decide)
  exact ⟨c, by rw [← hc]; decide, hcfe⟩

/-! ## Lemmas about text rendering and escaping -/

theorem replace1_eq_flatMap (c : Char) (rep : List Char) :
    ∀ l : List Char,
    replace1 c rep l = l.flatMap (fun x => if x = c then rep else [x])
  | [] => rfl
  | x :: xs => by
    rw [replace1, List.flatMap_cons, replace1_eq_flatMap c rep xs]

theorem replace1_append (c : Char) (rep : List Char) :
    ∀ l1 l2 : List Char,
    replace1 c rep (l1 ++ l2) = replace1 c rep l1 ++ replace1 c rep l2
  | [], l2 => rfl
  | x :: xs, l2 => by
    rw [List.cons_append, replace1, replace1, replace1_append c rep xs l2,
      List.append_assoc]

theorem escape_chain_append (l1 l2 : List Char) :
    replace1 (Char.ofNat 39) (("&#39;").data)
      (replace1 (Char.ofNat 34) (("&quot;").data)
        (replace1 '>' (("&gt;").data)
          (replace1 '<' (("&lt;").data)
            (replace1 '&' (("&amp;").data) (l1 ++ l2)))))
    = replace1 (Char.ofNat 39) (("&#39;").data)
        (replace1 (Char.ofNat 34) (("&quot;").data)
          (replace1 '>' (("&gt;").data)
            (replace1 '<' (("&lt;").data)
              (replace1 '&' (("&amp;").data) l1))))
      ++ replace1 (Char.ofNat 39) (("&#39;").data)
          (replace1 (Char.ofNat 34) (("&quot;").data)
            (replace1 '>' (("&gt;").data)
              (replace1 '<' (("&lt;").data)
                (replace1 '&' (("&amp;").data) l2)))) := by
  simp only [replace1_append]

theorem escape_chain_single (x : Char) :
    replace1 (Char.ofNat 39) (("&#39;").data)
      (replace1 (Char.ofNat 34) (("&quot;").data)
        (replace1 '>' (("&gt;").data)
          (replace1 '<' (("&lt;").data)
            (replace1 '&' (("&amp;").data) [x]))))
    = escChar x := by
  by_cases h1 : x = '&'
  · subst h1
    rfl
  · by_cases h2 : x = '<'
    · subst h2
      rfl
    · by_cases h3 : x = '>'
      · subst h3
        rfl
      · by_cases h4 : x = Char.ofNat 34
        · subst h4
          rfl
        · by_cases h5 : x = Char.ofNat 39
          · subst h5
            rfl
          · simp [replace1, escChar, h1, h2, h3, h4, h5]

theorem escape_chain_eq : ∀ l : List Char,
    replace1 (Char.ofNat 39) (("&#39;").data)
      (replace1 (Char.ofNat 34) (("&quot;").data)
        (replace1 '>' (("&gt;").data)
          (replace1 '<' (("&lt;").data)
            (replace1 '&' (("&amp;").data) l))))
    = l.flatMap escChar
  | [] => rfl
  | x :: xs => by
    have hsplit := escape_chain_append [x] xs
    rw [show (x :: xs) = [x] ++ xs from rfl, hsplit, escape_chain_single x,
      escape_chain_eq xs, List.flatMap_append]
    simp

/-- The chained replacements of `_escape_xml` act character by
character. -/
theorem escape_xml_spec (s : String) :
    escape_xml s = String.mk (s.data.flatMap escChar) := by
  rw [escape_xml, escape_chain_eq]

theorem foldl_append_eq_map {α β : Type} (g : α → β) :
    ∀ (l : List α) (acc : List β),
    l.foldl (fun a x => a ++ [g x]) acc = acc ++ l.map g
  | [], acc => by simp
  | x :: xs, acc => by
    rw [List.foldl_cons, foldl_append_eq_map g xs (acc ++ [g x]), List.map_cons]
    simp

/-- The story loop of `_text_to_pdf` is one block per split line. -/
theorem buildStory_eq_map (content : String) :
    buildStory content
      = (pySplitlines content).map
          (fun line => if pyStrip line ≠ ""
            then Block.paragraph (escape_xml line) else Block.spacer) := by
  rw [buildStory]
  have hfun : (fun (story : List Block) (line : String) =>
      if pyStrip line ≠ "" then story ++ [Block.paragraph (escape_xml line)]
      else story ++ [Block.spacer])
      = fun (story : List Block) (line : String) =>
          story ++ [if pyStrip line ≠ ""
            then Block.paragraph (escape_xml line) else Block.spacer] := by
    funext story line
    split <;> rfl
  rw [hfun, foldl_append_eq_map]
  simp

/-- **C8**: conversion of a text file reads it tolerantly (undecodable
bytes are skipped, the conversion itself never fails on them), and the
story laid out into the output PDF contains exactly one paragraph block
per non-blank line, carrying the line with the XML-reserved characters
escaped character-wise, and one spacer block per blank line. -/
theorem text_to_pdf_renders_lines
    (env : Env) (fs : FS) (txt_path out_pdf : FPath)
    (bytes : List (Option Char))
    (hread : fs.read txt_path = some (FData.txt bytes)) :
    (textToPdf env fs txt_path out_pdf).1 = Except.ok () ∧
    (textToPdf env fs txt_path out_pdf).2.read out_pdf
      = some (FData.pdf (env.layout (buildStory (decodeIgnore bytes)))) ∧
    decodeIgnore bytes = String.mk (bytes.filterMap id) ∧
    buildStory (decodeIgnore bytes)
      = (pySplitlines (decodeIgnore bytes)).map
          (fun line => if pyStrip line ≠ ""
            then Block.paragraph (escape_xml line) else Block.spacer) ∧
    (∀ line : String, escape_xml line = String.mk (line.data.flatMap escChar)) := by
  refine ⟨?_, ?_, rfl, buildStory_eq_map _, fun line => escape_xml_spec line⟩
  · simp only [textToPdf, hread]
  · simp only [textToPdf, hread]
    rw [FS.read_write_self]

/-- Witness for C8 on a text file with an undecodable byte, an
ampersand and a blank line. -/
theorem text_to_pdf_renders_lines_witness :
    (textToPdf okEnv fsAB "/s.txt" "/tmp/t1/txt_s.pdf").1 = Except.ok () ∧
    buildStory (decodeIgnore
        [some 'a', none, some '&', some '\n', some '\n', some 'b'])
      = [Block.paragraph ("a&amp;"), Block.spacer, Block.paragraph ("b")] := by
  have h := text_to_pdf_renders_lines okEnv fsAB "/s.txt" "/tmp/t1/txt_s.pdf"
    [some 'a', none, some '&', some '\n', some '\n', some 'b'] (by decide)
  exact ⟨h.1, by decide⟩

/-! ## Lemmas about write locality of the converters -/

theorem atOrUnder_pyJoin {tmp : FPath} (h1 : tmp ≠ "")
    (h2 : strEndsWith tmp ("/") = false) (b : String) :
    atOrUnder tmp (pyJoin tmp b) = true := by
  have hbeq : (tmp == "") = false := beq_eq_false_iff_ne.mpr h1
  rw [pyJoin]
  simp only [hbeq, Bool.false_eq_true, if_false, h2]
  rw [atOrUnder]
  have hpre : (tmp.data ++ ['/']).isPrefixOf ((tmp ++ "/" ++ b).data) = true := by
    rw [List.isPrefixOf_iff_prefix]
    have hd : (tmp ++ "/" ++ b).data = (tmp.data ++ ['/']) ++ b.data := by
      rw [String.data_append, String.data_append]
    rw [hd]
    exact List.prefix_append _ _
  rw [hpre, Bool.or_true]

theorem textToPdf_preserve (env : Env) (fs : FS) (a b : FPath) {p : FPath}
    (hb : p ≠ b) :
    (textToPdf env fs a b).2.read p = fs.read p := by
  rcases hrd : fs.read a with _ | d0
  · simp only [textToPdf, hrd]
  · rcases d0 with p1 | di | bytes | dd | _ <;> simp only [textToPdf, hrd] <;>
      try rfl
    exact FS.read_write_ne fs hb _

theorem imageToPdf_preserve (env : Env) (fs : FS) (a b c : FPath) {p : FPath}
    (hb : p ≠ b)
    (hfix : p ≠ pyJoin c ("fixed_" ++ pyStem a ++ ".png")) :
    (imageToPdf env fs a b c).2.read p = fs.read p := by
  rcases hrd : fs.read a with _ | d0
  · simp only [imageToPdf, hrd]
  · rcases d0 with p1 | di | b1 | d1 | _ <;> simp only [imageToPdf, hrd] <;>
      try rfl
    rcases hpe : env.encode
        { auto_orient := some true, rotation_ifvalid := env.hasIfvalid } di
      with e1 | pages1 <;> simp only [hpe]
    · by_cases hm : (!containsSub (("invalid rotation").data) ((lowerStr e1).data)
          && !containsSub (("rotation").data) ((lowerStr e1).data)) = true
      · rw [if_pos hm]
        exact FS.read_write_ne fs hb _
      · rw [if_neg hm]
        rcases htr : env.transpose di with e2 | fixed <;> simp only [htr]
        · rcases hf : env.encode
              { auto_orient := none, rotation_ifvalid := false } di
            with e3 | p3 <;> simp only [hf]
          · rw [FS.read_write_ne _ hb, FS.read_write_ne _ hb]
          · rw [FS.read_write_ne _ hb, FS.read_write_ne _ hb,
              FS.read_write_ne _ hb]
        · rcases hs : env.encode
              { auto_orient := some false, rotation_ifvalid := false } fixed
            with e3 | p3 <;> simp only [hs]
          · rcases hf : env.encode
                { auto_orient := none, rotation_ifvalid := false } di
              with e4 | p4 <;> simp only [hf]
            · rw [FS.read_write_ne _ hb, FS.read_write_ne _ hb,
                FS.read_write_ne _ hfix, FS.read_write_ne _ hb]
            · rw [FS.read_write_ne _ hb, FS.read_write_ne _ hb,
                FS.read_write_ne _ hb, FS.read_write_ne _ hfix,
                FS.read_write_ne _ hb]
          · rw [FS.read_write_ne _ hb, FS.read_write_ne _ hb,
              FS.read_write_ne _ hfix, FS.read_write_ne _ hb]
    · rw [FS.read_write_ne _ hb, FS.read_write_ne _ hb]

theorem convert_to_pdf_preserve (env : Env) (fs : FS) (f tmp : FPath)
    {p : FPath} (hp : atOrUnder tmp p = false)
    (htmp1 : tmp ≠ "") (htmp2 : strEndsWith tmp ("/") = false) :
    (convert_to_pdf env fs f (some tmp)).2.read p = fs.read p := by
  have hne : ∀ b : String, p ≠ pyJoin tmp b := by
    intro b hpb
    rw [hpb, atOrUnder_pyJoin htmp1 htmp2 b] at hp
    cases hp
  simp only [convert_to_pdf, Option.getD_some]
  by_cases h1 : (!fs.isfile (pyAbspath env.cwd f)) = true
  · rw [if_pos h1]
  · rw [if_neg h1]
    by_cases h2 : IMAGE_EXTS.contains (lowerStr (pySuffix (pyAbspath env.cwd f))) = true
    · rw [if_pos h2]
      rcases hi : imageToPdf env fs (pyAbspath env.cwd f)
          (pyJoin tmp ("img_" ++ pyStem (pyAbspath env.cwd f) ++ ".pdf")) tmp
        with ⟨ir, fs1⟩
      have hpres := imageToPdf_preserve env fs (pyAbspath env.cwd f)
        (pyJoin tmp ("img_" ++ pyStem (pyAbspath env.cwd f) ++ ".pdf")) tmp
        (hne _) (hne _)
      rw [hi] at hpres
      rcases ir with e1 | u <;> simp only [hi] <;> exact hpres
    · rw [if_neg h2]
      by_cases h3 : TEXT_EXTS.contains (lowerStr (pySuffix (pyAbspath env.cwd f))) = true
      · rw [if_pos h3]
        rcases ht : textToPdf env fs (pyAbspath env.cwd f)
            (pyJoin tmp ("txt_" ++ pyStem (pyAbspath env.cwd f) ++ ".pdf"))
          with ⟨tr, fs1⟩
        have hpres := textToPdf_preserve env fs (pyAbspath env.cwd f)
          (pyJoin tmp ("txt_" ++ pyStem (pyAbspath env.cwd f) ++ ".pdf"))
          (hne _)
        rw [ht] at hpres
        rcases tr with e1 | u <;> simp only [ht] <;> exact hpres
      · rw [if_neg h3]
        by_cases h4 : DOCX_EXTS.contains (lowerStr (pySuffix (pyAbspath env.cwd f))) = true
        · rw [if_pos h4]
          by_cases h5 : (!env.hasDocx) = true
          · rw [if_pos h5]
          · rw [if_neg h5]
            rcases hrd : fs.read (pyAbspath env.cwd f) with _ | d0
            · simp only [hrd]
            · rcases d0 with p1 | di | b1 | dd | _ <;> simp only [hrd] <;>
                try rfl
              rcases hdc : env.docxConvert dd with e1 | pages2 <;>
                  simp only [hdc] <;> try rfl
              exact FS.read_write_ne fs (hne _) _
        · rw [if_neg h4]

theorem convertLoop_preserve (env : Env) (tmpdir : FPath)
    (htmp1 : tmpdir ≠ "") (htmp2 : strEndsWith tmpdir ("/") = false) :
    ∀ (l : List FPath) (fs : FS) (acc : List FPath) (p : FPath),
    atOrUnder tmpdir p = false →
    (convertLoop env tmpdir l fs acc).2.read p = fs.read p
  | [], fs, acc, p, hp => by simp [convertLoop]
  | f :: rest, fs, acc, p, hp => by
    simp only [convertLoop]
    by_cases h1 : (lowerStr (pySuffix f) == ".pdf") = true
    · rw [if_pos h1]
      exact convertLoop_preserve env tmpdir htmp1 htmp2 rest fs (f :: acc) p hp
    · rw [if_neg h1]
      by_cases h2 : is_supported_nonpdf env f = true
      · rw [if_pos h2]
        rcases hcv : convert_to_pdf env fs f (some tmpdir) with ⟨cr, fs1⟩
        have hpres := convert_to_pdf_preserve env fs f tmpdir hp htmp1 htmp2
        rw [hcv] at hpres
        rcases cr with e1 | outPdf <;> simp only [hcv]
        · exact hpres
        · rw [convertLoop_preserve env tmpdir htmp1 htmp2 rest fs1
            (outPdf :: acc) p hp]
          exact hpres
      · rw [if_neg h2]

theorem convertLoop_unsupported_fails (env : Env) (tmpdir : FPath) :
    ∀ (l : List FPath) (fs : FS) (acc : List FPath) (f : FPath),
    f ∈ l → (lowerStr (pySuffix f) == ".pdf") = false →
    is_supported_nonpdf env f = false →
    ∃ e, (convertLoop env tmpdir l fs acc).1 = Except.error e
  | [], _, _, f, hf, _, _ => absurd hf (List.not_mem_nil f)
  | g :: rest, fs, acc, f, hf, hfp, hfs => by
    simp only [convertLoop]
    by_cases h1 : (lowerStr (pySuffix g) == ".pdf") = true
    · rw [if_pos h1]
      have hfr : f ∈ rest := by
        rcases List.mem_cons.mp hf with he | hr
        · subst he
          simp [hfp] at h1
        · exact hr
      exact convertLoop_unsupported_fails env tmpdir rest fs (g :: acc) f
        hfr hfp hfs
    · rw [if_neg h1]
      by_cases h2 : is_supported_nonpdf env g = true
      · rw [if_pos h2]
        rcases hcv : convert_to_pdf env fs g (some tmpdir) with ⟨cr, fs1⟩
        rcases cr with e1 | outPdf <;> simp only [hcv]
        · exact ⟨e1, rfl⟩
        · have hfr : f ∈ rest := by
            rcases List.mem_cons.mp hf with he | hr
            · subst he
              simp [hfs] at h2
            · exact hr
          exact convertLoop_unsupported_fails env tmpdir rest fs1
            (outPdf :: acc) f hfr hfp hfs
      · rw [if_neg h2]
        exact ⟨PyErr.valueError ("Unsupported input type: " ++ g), rfl⟩

theorem wrapTryExcept_error (e : PyErr) :
    ∃ e2, wrapTryExcept (Except.error e) = Except.error e2 := by
  cases e <;> exact ⟨_, rfl⟩

/-- **C6**: an input file whose extension is neither `.pdf` nor a
supported image, text or word-processor type makes `convert_to_pdf`
fail with a `ValueError` naming the unsupported extension, and makes
every merge containing such an input abort with an error while the
output path is never written. -/
theorem unsupported_type_aborts (env : Env) :
    (∀ (fs : FS) (q : FPath) (t : Option FPath),
      fs.isfile (pyAbspath env.cwd q) = true →
      IMAGE_EXTS.contains (lowerStr (pySuffix (pyAbspath env.cwd q))) = false →
      TEXT_EXTS.contains (lowerStr (pySuffix (pyAbspath env.cwd q))) = false →
      DOCX_EXTS.contains (lowerStr (pySuffix (pyAbspath env.cwd q))) = false →
      convert_to_pdf env fs q t
        = (Except.error (PyErr.valueError
            ("Unsupported file type for conversion: "
              ++ lowerStr (pySuffix (pyAbspath env.cwd q)))), fs)) ∧
    (∀ (fs0 : FS) (inputs : List String) (output_path : String)
        (overwrite : Bool) (tmpdir : FPath) (f : FPath),
      f ∈ inputs.filter (fun p => pyStrip p != "") →
      (lowerStr (pySuffix f) == ".pdf") = false →
      is_supported_nonpdf env f = false →
      tmpdir ≠ "" → strEndsWith tmpdir ("/") = false →
      atOrUnder tmpdir (finalOut env output_path) = false →
      (∃ e, (merge_pdfs env fs0 inputs output_path overwrite tmpdir).1
          = Except.error e) ∧
      (merge_pdfs env fs0 inputs output_path overwrite tmpdir).2.read
          (finalOut env output_path)
        = fs0.read (finalOut env output_path)) := by
  constructor
  · intro fs q t hfile h1 h2 h3
    have hfe : (!fs.isfile (pyAbspath env.cwd q)) = false := by
      rw [hfile]
      rfl
    simp only [convert_to_pdf, hfe, Bool.false_eq_true, if_false, h1, h2, h3]
  · intro fs0 inputs output_path overwrite tmpdir f hf hfp hfs ht1 ht2 hout
    by_cases h1 : (inputs.filter (fun p => pyStrip p != "")).isEmpty
    · simp only [merge_pdfs, h1, if_true]
      exact ⟨⟨_, rfl⟩, by simp⟩
    · have hempty : (inputs.filter (fun p => pyStrip p != "")).isEmpty = false :=
        Bool.eq_false_iff.mpr h1
      rcases hfind : (inputs.filter (fun p => pyStrip p != "")).find?
          (fun g => !(fs0.isfile g)) with _ | g
      · simp only [merge_pdfs, hempty, Bool.false_eq_true, if_false, hfind]
        split
        · exact ⟨⟨_, rfl⟩, FS.read_makedirs fs0 _ _⟩
        · split
          · exact ⟨⟨_, rfl⟩, FS.read_makedirs fs0 _ _⟩
          · rcases hcl : convertLoop env tmpdir
                (inputs.filter (fun p => pyStrip p != ""))
                ((fs0.makedirs (outDirOf env output_path)).mkTempDir tmpdir) []
              with ⟨cr, fsc⟩
            obtain ⟨e, he⟩ := convertLoop_unsupported_fails env tmpdir
              (inputs.filter (fun p => pyStrip p != ""))
              ((fs0.makedirs (outDirOf env output_path)).mkTempDir tmpdir) []
              f hf hfp hfs
            rw [hcl] at he
            have hpres := convertLoop_preserve env tmpdir ht1 ht2
              (inputs.filter (fun p => pyStrip p != ""))
              ((fs0.makedirs (outDirOf env output_path)).mkTempDir tmpdir) []
              (finalOut env output_path) hout
            rw [hcl] at hpres
            have hpres2 : fsc.read (finalOut env output_path)
                = fs0.read (finalOut env output_path) := by
              have h3 := hpres
              rw [FS.read_mkTempDir, FS.read_makedirs] at h3
              exact h3
            rcases cr with e1 | pdf_paths
            · have hbody : mergeBody env tmpdir
                  (inputs.filter (fun p => pyStrip p != "")) output_path
                  ((fs0.makedirs (outDirOf env output_path)).mkTempDir tmpdir)
                  = (Except.error e1, fsc) := by
                unfold mergeBody
                rw [hcl]
              rw [hbody]
              constructor
              · exact wrapTryExcept_error e1
              · show (fsc.removeTree tmpdir).read (finalOut env output_path)
                  = fs0.read (finalOut env output_path)
                rw [FS.read_removeTree _ hout]
                exact hpres2
            · exact absurd he (by simp)
      · simp only [merge_pdfs, hempty, Bool.false_eq_true, if_false, hfind]
        exact ⟨⟨_, rfl⟩, by simp⟩

/-- Witness for C6: a `.xyz` input is rejected by the converter with a
message naming the extension, and a merge containing it errors without
writing the output file. -/
theorem unsupported_type_aborts_witness :
    convert_to_pdf okEnv fsAB "/x.xyz" (some "/tmp/t1")
      = (Except.error (PyErr.valueError
          ("Unsupported file type for conversion: .xyz")), fsAB) ∧
    (∃ e, (merge_pdfs okEnv fsAB ["/a.pdf", "/x.xyz"] "/d/out.pdf" false
        "/tmp/t1").1 = Except.error e) ∧
    (merge_pdfs okEnv fsAB ["/a.pdf", "/x.xyz"] "/d/out.pdf" false
        "/tmp/t1").2.read ("/d/out.pdf") = none := by
  have h := unsupported_type_aborts okEnv
  have ha := h.1 fsAB "/x.xyz" (some "/tmp/t1") (by decide) (by decide)
    (by decide) (by decide)
  have hb := h.2 fsAB ["/a.pdf", "/x.xyz"] "/d/out.pdf" false "/tmp/t1"
    "/x.xyz" (by decide) (by decide) (by decide) (by decide) (by decide)
    (by decide)
  exact ⟨ha, hb.1, hb.2.trans (by decide)⟩

/-! ## Lemmas about substring matching and the image fallback chain -/

theorem containsSub_infix_iff {pat s : List Char} :
    containsSub pat s = true ↔ pat <:+: s := by
  rw [containsSub, List.any_eq_true]
  constructor
  · rintro ⟨t, ht, hp⟩
    exact List.infix_iff_prefix_suffix.mpr
      ⟨t, List.isPrefixOf_iff_prefix.mp hp, (List.mem_tails t s).mp ht⟩
  · intro h
    obtain ⟨t, hp, hs⟩ := List.infix_iff_prefix_suffix.mp h
    exact ⟨t, (List.mem_tails t s).mpr hs, List.isPrefixOf_iff_prefix.mpr hp⟩

/-- A message containing the phrase about invalid rotation in
particular contains the word rotation. -/
theorem containsSub_invalid_rotation {m : List Char}
    (h : containsSub (("invalid rotation").data) m = true) :
    containsSub (("rotation").data) m = true := by
  rw [containsSub_infix_iff] at h ⊢
  exact (show (("rotation").data) <:+: (("invalid rotation").data) by decide).trans h

/-- **C7**: the image conversion enters its fallback chain only when
the primary encode fails with a message whose lower-casing contains the
rotation wording; any other primary failure propagates immediately.
The fallback transposes the decoded image, re-encodes it as a raster
file in the temporary directory and retries encoding with orientation
correction disabled, and the final fallback retries the original
encode call with no orientation options at all. -/
theorem image_to_pdf_fallback_chain
    (env : Env) (fs : FS) (a b c : FPath) (data : Nat)
    (hread : fs.read a = some (FData.img data)) :
    (∀ pages, env.encode
        { auto_orient := some true, rotation_ifvalid := env.hasIfvalid } data
        = Except.ok pages →
      imageToPdf env fs a b c
        = (Except.ok (), (fs.write b FData.empty).write b (FData.pdf pages))) ∧
    (∀ msg, env.encode
        { auto_orient := some true, rotation_ifvalid := env.hasIfvalid } data
        = Except.error msg →
      containsSub (("rotation").data) ((lowerStr msg).data) = false →
      imageToPdf env fs a b c
        = (Except.error (PyErr.libError msg), fs.write b FData.empty)) ∧
    (∀ msg fixed pages, env.encode
        { auto_orient := some true, rotation_ifvalid := env.hasIfvalid } data
        = Except.error msg →
      containsSub (("rotation").data) ((lowerStr msg).data) = true →
      env.transpose data = Except.ok fixed →
      env.encode { auto_orient := some false, rotation_ifvalid := false } fixed
        = Except.ok pages →
      imageToPdf env fs a b c
        = (Except.ok (),
           (((fs.write b FData.empty).write
              (pyJoin c ("fixed_" ++ pyStem a ++ ".png"))
              (FData.img fixed)).write b FData.empty).write b
             (FData.pdf pages))) ∧
    (∀ msg e2 pages, env.encode
        { auto_orient := some true, rotation_ifvalid := env.hasIfvalid } data
        = Except.error msg →
      containsSub (("rotation").data) ((lowerStr msg).data) = true →
      env.transpose data = Except.error e2 →
      env.encode { auto_orient := none, rotation_ifvalid := false } data
        = Except.ok pages →
      imageToPdf env fs a b c
        = (Except.ok (),
           ((fs.write b FData.empty).write b FData.empty).write b
             (FData.pdf pages))) ∧
    (∀ msg e2 e3, env.encode
        { auto_orient := some true, rotation_ifvalid := env.hasIfvalid } data
        = Except.error msg →
      containsSub (("rotation").data) ((lowerStr msg).data) = true →
      env.transpose data = Except.error e2 →
      env.encode { auto_orient := none, rotation_ifvalid := false } data
        = Except.error e3 →
      (imageToPdf env fs a b c).1 = Except.error (PyErr.libError e3)) ∧
    (∀ msg fixed e2 pages, env.encode
        { auto_orient := some true, rotation_ifvalid := env.hasIfvalid } data
        = Except.error msg →
      containsSub (("rotation").data) ((lowerStr msg).data) = true →
      env.transpose data = Except.ok fixed →
      env.encode { auto_orient := some false, rotation_ifvalid := false } fixed
        = Except.error e2 →
      env.encode { auto_orient := none, rotation_ifvalid := false } data
        = Except.ok pages →
      (imageToPdf env fs a b c).1 = Except.ok ()) := by
  have hcond : ∀ msg : String,
      containsSub (("rotation").data) ((lowerStr msg).data) = false →
      (!containsSub (("invalid rotation").data) ((lowerStr msg).data)
        && !containsSub (("rotation").data) ((lowerStr msg).data)) = true := by
    intro msg h
    have h2 : containsSub (("invalid rotation").data) ((lowerStr msg).data)
        = false := by
      rcases hb : containsSub (("invalid rotation").data) ((lowerStr msg).data)
      · rfl
      · rw [containsSub_invalid_rotation hb] at h
        cases h
    rw [h, h2]
    rfl
  have hcond2 : ∀ msg : String,
      containsSub (("rotation").data) ((lowerStr msg).data) = true →
      (!containsSub (("invalid rotation").data) ((lowerStr msg).data)
        && !containsSub (("rotation").data) ((lowerStr msg).data)) = false := by
    intro msg h
    rw [h]
    simp
  refine ⟨?_, ?_, ?_, ?_, ?_, ?_⟩
  · intro pages hok
    simp only [imageToPdf, hread, hok]
  · intro msg herr hrot
    simp only [imageToPdf, hread, herr]
    rw [if_pos (hcond msg hrot)]
  · intro msg fixed pages herr hrot htr hsec
    simp only [imageToPdf, hread, herr, htr, hsec]
    rw [if_neg (by rw [hcond2 msg hrot]; exact Bool.false_ne_true)]
  · intro msg e2 pages herr hrot htr hfin
    simp only [imageToPdf, hread, herr, htr, hfin]
    rw [if_neg (by rw [hcond2 msg hrot]; exact Bool.false_ne_true)]
  · intro msg e2 e3 herr hrot htr hfin
    simp only [imageToPdf, hread, herr, htr, hfin]
    rw [if_neg (by rw [hcond2 msg hrot]; exact Bool.false_ne_true)]
  · intro msg fixed e2 pages herr hrot htr hsec hfin
    simp only [imageToPdf, hread, herr, htr, hsec, hfin]
    rw [if_neg (by rw [hcond2 msg hrot]; exact Bool.false_ne_true)]

/-- Witness for C7: a rotation-related primary failure is recovered via
the transpose fallback, with the raster file saved in the temp
directory and the retry running with orientation correction disabled. -/
theorem image_to_pdf_fallback_chain_witness :
    (imageToPdf rotEnv fsAB "/i.png" "/tmp/t1/img_i.pdf" "/tmp/t1").1
      = Except.ok () ∧
    (imageToPdf rotEnv fsAB "/i.png" "/tmp/t1/img_i.pdf" "/tmp/t1").2.read
      ("/tmp/t1/img_i.pdf") = some (FData.pdf [108]) ∧
    (imageToPdf rotEnv fsAB "/i.png" "/tmp/t1/img_i.pdf" "/tmp/t1").2.read
      ("/tmp/t1/fixed_i.png") = some (FData.img 107) ∧
    (imageToPdf boomEnv fsAB "/i.png" "/tmp/t1/img_i.pdf" "/tmp/t1").1
      = Except.error (PyErr.libError ("boom")) := by
  have h3 := (image_to_pdf_fallback_chain rotEnv fsAB "/i.png"
    "/tmp/t1/img_i.pdf" "/tmp/t1" 7 (by decide)).2.2.1
    "bad Rotation value" 107 [108] (by decide) (by decide) (by decide)
    (by decide)
  have h2 := ((image_to_pdf_fallback_chain boomEnv fsAB "/i.png"
    "/tmp/t1/img_i.pdf" "/tmp/t1" 7 (by decide)).2.1
    "boom" (by decide) (by decide))
  rw [h3, h2]
  exact ⟨rfl, by decide, by decide, rfl⟩

/-! ## Lemmas about the temporary-file naming of the converter -/

theorem str_append_left_cancel {a x y : String} (h : a ++ x = a ++ y) :
    x = y := by
  apply String.ext
  have h2 := congrArg String.data h
  rw [String.data_append, String.data_append] at h2
  exact List.append_cancel_left h2

theorem pyJoin_inj_arg {tmp x y : String} (h : pyJoin tmp x = pyJoin tmp y) :
    x = y := by
  rw [pyJoin, pyJoin] at h
  by_cases h1 : (tmp == "") = true
  · rw [if_pos h1, if_pos h1] at h
    exact h
  · rw [if_neg h1, if_neg h1] at h
    by_cases h2 : strEndsWith tmp ("/") = true
    · rw [if_pos h2, if_pos h2] at h
      exact str_append_left_cancel h
    · rw [if_neg h2, if_neg h2] at h
      exact str_append_left_cancel h

theorem tag_names_ne (s1 s2 : String) :
    ("img_" ++ s1 ++ ".pdf") ≠ ("txt_" ++ s2 ++ ".pdf") ∧
    ("img_" ++ s1 ++ ".pdf") ≠ ("docx_" ++ s2 ++ ".pdf") ∧
    ("txt_" ++ s1 ++ ".pdf") ≠ ("docx_" ++ s2 ++ ".pdf") := by
  refine ⟨?_, ?_, ?_⟩ <;> intro h <;>
    have h2 := congrArg (fun s : String => s.data.head?) h <;>
    simp only [String.data_append] at h2
  · rw [show ((("img_").data ++ s1.data) ++ (".pdf").data).head? = some 'i'
        from rfl,
      show ((("txt_").data ++ s2.data) ++ (".pdf").data).head? = some 't'
        from rfl] at h2
    exact absurd h2 (by decide)
  · rw [show ((("img_").data ++ s1.data) ++ (".pdf").data).head? = some 'i'
        from rfl,
      show ((("docx_").data ++ s2.data) ++ (".pdf").data).head? = some 'd'
        from rfl] at h2
    exact absurd h2 (by decide)
  · rw [show ((("txt_").data ++ s1.data) ++ (".pdf").data).head? = some 't'
        from rfl,
      show ((("docx_").data ++ s2.data) ++ (".pdf").data).head? = some 'd'
        from rfl] at h2
    exact absurd h2 (by decide)

/-- A successful conversion of a text file: the output path is the
temp directory joined with the tag, the stem and `.pdf`, and the
produced PDF is the laid-out story. -/
theorem convert_to_pdf_txt (env : Env) (fs : FS) (f tmp : FPath)
    (bytes : List (Option Char))
    (hext : lowerStr (pySuffix (pyAbspath env.cwd f)) = ".txt")
    (hread : fs.read (pyAbspath env.cwd f) = some (FData.txt bytes)) :
    convert_to_pdf env fs f (some tmp)
      = (Except.ok (pyJoin tmp
          ("txt_" ++ pyStem (pyAbspath env.cwd f) ++ ".pdf")),
         fs.write (pyJoin tmp
            ("txt_" ++ pyStem (pyAbspath env.cwd f) ++ ".pdf"))
           (FData.pdf (env.layout (buildStory (decodeIgnore bytes))))) := by
  have hfile : (!fs.isfile (pyAbspath env.cwd f)) = false := by
    rw [FS.isfile, hread]
    rfl
  have h1 : IMAGE_EXTS.contains (lowerStr (pySuffix (pyAbspath env.cwd f)))
      = false := by
    rw [hext]
    decide
  have h2 : TEXT_EXTS.contains (lowerStr (pySuffix (pyAbspath env.cwd f)))
      = true := by
    rw [hext]
    decide
  simp only [convert_to_pdf, hfile, Bool.false_eq_true, if_false, h1, h2,
    if_true, Option.getD_some, textToPdf, hread]

/-- **C10**: the temporary output path chosen by `convert_to_pdf` is a
function of only the type-tag prefix, the stem of the input and the
temp directory.  Two same-class inputs with equal stems converted into
the same temp directory yield the identical path, the second conversion
overwriting the result of the first, while inputs of different type
classes always receive distinct file names. -/
theorem convert_output_path_deterministic :
    (∀ (env : Env) (fs : FS) (f tmp q : FPath),
      (convert_to_pdf env fs f (some tmp)).1 = Except.ok q →
      q = pyJoin tmp
        (typeTag (lowerStr (pySuffix (pyAbspath env.cwd f)))
          ++ pyStem (pyAbspath env.cwd f) ++ ".pdf")) ∧
    (∀ tmp s1 s2 : String,
      pyJoin tmp ("img_" ++ s1 ++ ".pdf")
        ≠ pyJoin tmp ("txt_" ++ s2 ++ ".pdf") ∧
      pyJoin tmp ("img_" ++ s1 ++ ".pdf")
        ≠ pyJoin tmp ("docx_" ++ s2 ++ ".pdf") ∧
      pyJoin tmp ("txt_" ++ s1 ++ ".pdf")
        ≠ pyJoin tmp ("docx_" ++ s2 ++ ".pdf")) ∧
    (∀ (env : Env) (fs : FS) (f1 f2 tmp : FPath)
        (b1 b2 : List (Option Char)),
      lowerStr (pySuffix (pyAbspath env.cwd f1)) = ".txt" →
      lowerStr (pySuffix (pyAbspath env.cwd f2)) = ".txt" →
      pyStem (pyAbspath env.cwd f1) = pyStem (pyAbspath env.cwd f2) →
      fs.read (pyAbspath env.cwd f1) = some (FData.txt b1) →
      (convert_to_pdf env fs f1 (some tmp)).2.read (pyAbspath env.cwd f2)
          = some (FData.txt b2) →
      ∃ q, (convert_to_pdf env fs f1 (some tmp)).1 = Except.ok q ∧
        (convert_to_pdf env ((convert_to_pdf env fs f1 (some tmp)).2) f2
            (some tmp)).1 = Except.ok q ∧
        (convert_to_pdf env ((convert_to_pdf env fs f1 (some tmp)).2) f2
            (some tmp)).2.read q
          = some (FData.pdf (env.layout (buildStory (decodeIgnore b2))))) := by
  refine ⟨?_, ?_, ?_⟩
  · intro env fs f tmp q h
    simp only [convert_to_pdf, Option.getD_some] at h
    by_cases h1 : (!fs.isfile (pyAbspath env.cwd f)) = true
    · rw [if_pos h1] at h
      exact absurd h (by simp)
    · rw [if_neg h1] at h
      by_cases h2 : IMAGE_EXTS.contains
          (lowerStr (pySuffix (pyAbspath env.cwd f))) = true
      · rw [if_pos h2] at h
        rw [typeTag, if_pos h2]
        rcases hi : imageToPdf env fs (pyAbspath env.cwd f)
            (pyJoin tmp ("img_" ++ pyStem (pyAbspath env.cwd f) ++ ".pdf")) tmp
          with ⟨ir, fs1⟩
        rw [hi] at h
        rcases ir with e1 | u
        · exact absurd h (by simp)
        · dsimp only at h
          injection h with h3
          exact h3.symm
      · rw [if_neg h2] at h
        rw [typeTag, if_neg h2]
        by_cases h3 : TEXT_EXTS.contains
            (lowerStr (pySuffix (pyAbspath env.cwd f))) = true
        · rw [if_pos h3] at h
          rw [if_pos h3]
          rcases ht : textToPdf env fs (pyAbspath env.cwd f)
              (pyJoin tmp ("txt_" ++ pyStem (pyAbspath env.cwd f) ++ ".pdf"))
            with ⟨tr, fs1⟩
          rw [ht] at h
          rcases tr with e1 | u
          · exact absurd h (by simp)
          · dsimp only at h
            injection h with h4
            exact h4.symm
        · rw [if_neg h3] at h
          rw [if_neg h3]
          by_cases h4 : DOCX_EXTS.contains
              (lowerStr (pySuffix (pyAbspath env.cwd f))) = true
          · rw [if_pos h4] at h
            by_cases h5 : (!env.hasDocx) = true
            · rw [if_pos h5] at h
              exact absurd h (by simp)
            · rw [if_neg h5] at h
              rcases hrd : fs.read (pyAbspath env.cwd f) with _ | d0
              · rw [hrd] at h
                exact absurd h (by simp)
              · rcases d0 with p1 | di | b1 | dd | _
                · rw [hrd] at h
                  exact absurd h (by simp)
                · rw [hrd] at h
                  exact absurd h (by simp)
                · rw [hrd] at h
                  exact absurd h (by simp)
                · rw [hrd] at h
                  dsimp only at h
                  rcases hdc : env.docxConvert dd with e1 | pages
                  · rw [hdc] at h
                    exact absurd h (by simp)
                  · rw [hdc] at h
                    dsimp only at h
                    injection h with h6
                    exact h6.symm
                · rw [hrd] at h
                  exact absurd h (by simp)
          · rw [if_neg h4] at h
            exact absurd h (by simp)
  · intro tmp s1 s2
    have ht := tag_names_ne s1 s2
    have ht2 := tag_names_ne s1 s2
    refine ⟨?_, ?_, ?_⟩ <;> intro h
    · exact ht.1 (pyJoin_inj_arg h)
    · exact ht.2.1 (pyJoin_inj_arg h)
    · exact ht.2.2 (pyJoin_inj_arg h)
  · intro env fs f1 f2 tmp b1 b2 hext1 hext2 hstem hread1 hread2
    have heq1 := convert_to_pdf_txt env fs f1 tmp b1 hext1 hread1
    have heq2 := convert_to_pdf_txt env ((convert_to_pdf env fs f1 (some tmp)).2)
      f2 tmp b2 hext2 hread2
    refine ⟨pyJoin tmp ("txt_" ++ pyStem (pyAbspath env.cwd f1) ++ ".pdf"),
      by rw [heq1], ?_, ?_⟩
    · rw [heq2, hstem]
    · rw [heq2, hstem]
      exact FS.read_write_self _ _ _

/-- Witness for C10: two text files with the same stem in different
directories collide on the same temporary output path, and the second
conversion overwrites the result of the first. -/
theorem convert_output_path_deterministic_witness :
    (convert_to_pdf okEnv fsAB "/t.txt" (some "/tmp/t1")).1
      = Except.ok ("/tmp/t1/txt_t.pdf") ∧
    (convert_to_pdf okEnv ((convert_to_pdf okEnv fsAB "/t.txt"
        (some "/tmp/t1")).2) "/d2/t.txt" (some "/tmp/t1")).1
      = Except.ok ("/tmp/t1/txt_t.pdf") ∧
    (convert_to_pdf okEnv ((convert_to_pdf okEnv fsAB "/t.txt"
        (some "/tmp/t1")).2) "/d2/t.txt" (some "/tmp/t1")).2.read
      ("/tmp/t1/txt_t.pdf") = some (FData.pdf [1]) := by
  obtain ⟨q, hq1, hq2, hq3⟩ := convert_output_path_deterministic.2.2 okEnv
    fsAB "/t.txt" "/d2/t.txt" "/tmp/t1" [some 'h', none, some 'i'] [some 'z']
    (by decide) (by decide) (by decide) (by decide) (by decide)
  have hqe : q = "/tmp/t1/txt_t.pdf" := by
    have h0 := hq1
    rw [show (convert_to_pdf okEnv fsAB "/t.txt" (some "/tmp/t1")).1
        = Except.ok ("/tmp/t1/txt_t.pdf") from by decide] at h0
    injection h0 with h1
    exact h1.symm
  rw [hqe] at hq1 hq2 hq3
  exact ⟨hq1, hq2, hq3⟩

end PDFMerger
